import Mathlib

/-!
# Verification of the fx-nola pattern engine and broker executor

Shallow embedding of the continuation-pattern strategy engine
(`supabase/functions/_shared/strategy.ts`), the broker executor loop
(`executor-server/src/executorLoop.js` and its variant with event
reconciliation), and the cTrader protocol client
(`executor-server/src/ctraderClient.js`).

JS `number` values are modelled as exact rationals (`ℚ`).  The sentinel
values `Infinity`, `-Infinity` and `NaN` used by the engine are modelled
with `Option ℚ` at the fields that can hold them (`pbLow`, `pbHigh`,
`sLow`, `sHigh`), with `none` standing for the sentinel.  Sentinel
indices (`-1`) are kept as `Int` exactly as in the source.
-/

set_option maxRecDepth 4000

namespace FxNola

/-- Prices and JS numbers in general are modelled as exact rationals. -/
abbrev Px := ℚ

inductive Direction where
  | LONG
  | SHORT
deriving DecidableEq, Repr

/-- `strategy.ts`: `type FractalType = "FSH" | "FSL"`. -/
inductive FractalType where
  | FSH
  | FSL
deriving DecidableEq, Repr

inductive TradeStatus where
  | OPEN
  | CLOSED
deriving DecidableEq, Repr

inductive ExitReason where
  | TP
  | SL
deriving DecidableEq, Repr

inductive EntryStatus where
  | pending_next_open
  | known_next_open
deriving DecidableEq, Repr

inductive Bias where
  | BULLISH
  | BEARISH
  | NEUTRAL
deriving DecidableEq, Repr

/-- `types.ts` `Candle`; `open` is written `«open»` because it is a Lean keyword. -/
structure Candle where
  ts : String
  «open» : Px
  high : Px
  low : Px
  close : Px
  volume : Option Px := none
deriving DecidableEq, Repr

instance : Inhabited Candle := ⟨{ ts := "", «open» := 0, high := 0, low := 0, close := 0 }⟩

/-- `types.ts` `Fractal`. -/
structure Fractal where
  type : FractalType
  index : Nat
  price : Px
  confirmedAtIndex : Nat
deriving DecidableEq, Repr

/-- `strategy.ts` line 12: `const PIP = 0.0001`. -/
def PIP : Px := 1 / 10000

/-- `strategy.ts` line 13: `const SL_BUFFER = 3 * PIP`. -/
def SL_BUFFER : Px := 3 * PIP

/-- `strategy.ts` line 14: `const D_MIN = 20 * PIP`. -/
def D_MIN : Px := 20 * PIP

/-- `strategy.ts` line 15. -/
def STRATEGY_CODE : String := "eurusd_m15_continuation_v1"

/-- JS `Number(n.toFixed(digits))`: decimal rounding, ties away from zero
(the ECMAScript `toFixed` algorithm takes the absolute value first). -/
def roundToFixed (digits : Nat) (q : ℚ) : ℚ :=
  let m : ℚ := (10 : ℚ) ^ digits
  if q < 0 then -((⌊-q * m + 1 / 2⌋ : ℚ) / m) else (⌊q * m + 1 / 2⌋ : ℚ) / m

/-- `strategy.ts` `roundPx`: `Number(n.toFixed(6))`. -/
def roundPx (q : ℚ) : ℚ := roundToFixed 6 q

/-- `strategy.ts` `roundPips`: `Number(n.toFixed(2))`. -/
def roundPips (q : ℚ) : ℚ := roundToFixed 2 q

/-- Total candle indexing; JS would crash on out-of-bounds access, every
use below is guarded to in-bounds indices by the engine's control flow. -/
def getC (candles : Array Candle) (i : Int) : Candle :=
  if 0 ≤ i then candles.getD i.toNat default else default

/-- `strategy.ts` `confirmFractalAt` (lines 41-64).  The JS guard
`pivotIndex - 1 < 0` covers the pivots `-1` (first loop iteration, folded
into `pivotIndex = 0` here by the caller's truncated subtraction) and `0`. -/
def confirmFractalAt (candles : Array Candle) (pivotIndex : Nat) : Option Fractal :=
  if pivotIndex = 0 ∨ candles.size ≤ pivotIndex + 1 then none
  else
    let prev := getC candles ((pivotIndex : Int) - 1)
    let cur := getC candles (pivotIndex : Int)
    let next := getC candles ((pivotIndex : Int) + 1)
    if prev.high < cur.high ∧ next.high < cur.high then
      some { type := .FSH, index := pivotIndex, price := cur.high,
             confirmedAtIndex := pivotIndex + 1 }
    else if cur.low < prev.low ∧ cur.low < next.low then
      some { type := .FSL, index := pivotIndex, price := cur.low,
             confirmedAtIndex := pivotIndex + 1 }
    else none

/-- `strategy.ts` `lastConfirmedOfType` (lines 66-80): scan the confirmed
fractal list from the most recent entry backwards. -/
def lastConfirmedOfType (confirmedFractals : List Fractal) (ty : FractalType)
    (currentCandleIndex : Nat) (pivotStrictlyBeforeCurrent : Bool := false) :
    Option Fractal :=
  confirmedFractals.reverse.find? fun f =>
    decide (f.type = ty) && decide (f.confirmedAtIndex ≤ currentCandleIndex) &&
      (!pivotStrictlyBeforeCurrent || decide (f.index < currentCandleIndex))

def dirStr : Direction → String
  | .LONG => "LONG"
  | .SHORT => "SHORT"

/-- `strategy.ts` `buildSignalKey` (lines 82-84). -/
def buildSignalKey (symbol timeframe direction triggerTime : String) : String :=
  STRATEGY_CODE ++ ":" ++ symbol ++ ":" ++ timeframe ++ ":" ++ direction ++ ":" ++ triggerTime

/-- `strategy.ts` `buildTradeKey` (lines 86-88). -/
def buildTradeKey (signalKey : String) : String :=
  signalKey ++ ":trade"

structure SignalMetrics where
  bosToPullbackStartCandles : Int
  pullbackStartToConfirmCandles : Int
  confirmToTriggerCandles : Int
deriving DecidableEq, Repr

/-- `types.ts` `EngineSignal`; the free-form `payload` object always holds
`{ stateMachine: "BEAR" | "BULL" }` and is modelled by that string. -/
structure EngineSignal where
  signalKey : String
  strategyCode : String
  symbol : String
  timeframe : String
  direction : Direction
  bosTime : String
  triggerTime : String
  plannedEntryTime : Option String
  plannedEntryPrice : Option Px
  entryStatus : EntryStatus
  stopLoss : Px
  takeProfit : Px
  impulsePips : Px
  anchorLine : Px
  causalExtreme : Px
  pbLevel : Px
  pullbackSwingTarget : Px
  causeFractalType : FractalType
  causeFractalIndex : Nat
  triggerCandleIndex : Nat
  metrics : SignalMetrics
  payloadStateMachine : String
deriving DecidableEq, Repr

/-- `types.ts` `EngineTrade`; the free-form `payload` object always holds
`{ entryIndex, triggerIndex }` and is modelled by those two fields. -/
structure EngineTrade where
  tradeKey : String
  signalKey : String
  symbol : String
  timeframe : String
  direction : Direction
  entryTime : String
  entryPrice : Px
  stopLoss : Px
  takeProfit : Px
  exitTime : Option String
  exitPrice : Option Px
  exitReason : Option ExitReason
  rMultiple : Option Px
  status : TradeStatus
  payloadEntryIndex : Nat
  payloadTriggerIndex : Nat
deriving DecidableEq, Repr

/-- `types.ts` `EngineEvent`. -/
inductive EngineEvent where
  | structureFlip (ts : String) (fromBias : Bias) (toBias : Bias) (reason : String)
  | cycleDiscarded (ts : String) (direction : Direction) (impulsePips : Px) (minImpulsePips : Px)
deriving DecidableEq, Repr

/-- `strategy.ts` `simulateOpenTradeAtCandle` (lines 213-251), restricted to
its pure per-trade core: the candle is applied to an open trade and the
updated trade is returned.  The surrounding guards on `tradeRuntime` and the
entry index (lines 214-218) live in the state-machine wrapper below. -/
def simulateOpenTradeAtCandle (tr : EngineTrade) (c : Candle) : EngineTrade :=
  match tr.status with
  | .CLOSED => tr
  | .OPEN =>
  match tr.direction with
  | .LONG =>
    let hitsSl := decide (c.low ≤ tr.stopLoss)
    let hitsTp := decide (tr.takeProfit ≤ c.high)
    if !(hitsSl || hitsTp) then tr
    else
      let slFirst := if hitsSl && hitsTp then true else hitsSl
      let exitPrice := if slFirst then tr.stopLoss else tr.takeProfit
      let risk := tr.entryPrice - tr.stopLoss
      let reward := exitPrice - tr.entryPrice
      { tr with
          exitTime := some c.ts
          exitPrice := some exitPrice
          exitReason := some (if slFirst then ExitReason.SL else ExitReason.TP)
          rMultiple := if 0 < risk then some (roundPips (reward / risk)) else none
          status := .CLOSED }
  | .SHORT =>
    let hitsSl := decide (tr.stopLoss ≤ c.high)
    let hitsTp := decide (c.low ≤ tr.takeProfit)
    if !(hitsSl || hitsTp) then tr
    else
      let slFirst := if hitsSl && hitsTp then true else hitsSl
      let exitPrice := if slFirst then tr.stopLoss else tr.takeProfit
      let risk := tr.stopLoss - tr.entryPrice
      -- source: `tr.entryPrice - (tr.exitPrice ?? tr.entryPrice)`; `exitPrice`
      -- was assigned two lines above, so the fallback is dead
      let reward := tr.entryPrice - exitPrice
      { tr with
          exitTime := some c.ts
          exitPrice := some exitPrice
          exitReason := some (if slFirst then ExitReason.SL else ExitReason.TP)
          rMultiple := if 0 < risk then some (roundPips (reward / risk)) else none
          status := .CLOSED }

/-- C4: when a candle touches both protective levels of an open simulated
trade, the trade closes at the stop-loss (reason `SL`, exit price =
`stopLoss`), never at the take-profit, in both directions. -/
theorem claim_C4_both_touched_closes_at_stop (tr : EngineTrade) (c : Candle)
    (hopen : tr.status = .OPEN)
    (hlong : tr.direction = .LONG → c.low ≤ tr.stopLoss ∧ tr.takeProfit ≤ c.high)
    (hshort : tr.direction = .SHORT → tr.stopLoss ≤ c.high ∧ c.low ≤ tr.takeProfit) :
    (simulateOpenTradeAtCandle tr c).exitReason = some ExitReason.SL ∧
    (simulateOpenTradeAtCandle tr c).exitPrice = some tr.stopLoss ∧
    (simulateOpenTradeAtCandle tr c).status = .CLOSED := by
  cases hdir : tr.direction with
  | LONG =>
    obtain ⟨h1, h2⟩ := hlong hdir
    simp [simulateOpenTradeAtCandle, hopen, hdir, h1, h2]
  | SHORT =>
    obtain ⟨h1, h2⟩ := hshort hdir
    simp [simulateOpenTradeAtCandle, hopen, hdir, h1, h2]

/-- Witness for C4 at a concrete LONG trade whose candle touches both levels. -/
def c4Trade : EngineTrade :=
  { tradeKey := "k:trade", signalKey := "k", symbol := "EUR/USD", timeframe := "15min",
    direction := .LONG, entryTime := "T1", entryPrice := 11 / 10,
    stopLoss := 109 / 100, takeProfit := 111 / 100,
    exitTime := none, exitPrice := none, exitReason := none, rMultiple := none,
    status := .OPEN, payloadEntryIndex := 1, payloadTriggerIndex := 0 }

def c4Candle : Candle :=
  { ts := "T2", «open» := 11 / 10, high := 112 / 100, low := 108 / 100, close := 11 / 10 }

theorem claim_C4_witness :
    (simulateOpenTradeAtCandle c4Trade c4Candle).exitReason = some ExitReason.SL ∧
    (simulateOpenTradeAtCandle c4Trade c4Candle).exitPrice = some c4Trade.stopLoss ∧
    (simulateOpenTradeAtCandle c4Trade c4Candle).status = .CLOSED :=
  claim_C4_both_touched_closes_at_stop c4Trade c4Candle (by decide)
    (fun _ => by constructor <;> norm_num [c4Trade, c4Candle])
    (fun h => by simp [c4Trade] at h)

/-- C10: when the closing trade's risk unit is not strictly positive
(LONG with `entryPrice ≤ stopLoss`, SHORT with `stopLoss ≤ entryPrice`),
the realized-risk-multiple division is skipped (`rMultiple = none`) while
the trade still closes with an exit price and reason. -/
theorem claim_C10_nonpositive_risk_skips_rMultiple (tr : EngineTrade) (c : Candle)
    (hopen : tr.status = .OPEN)
    (hlong : tr.direction = .LONG →
      tr.entryPrice ≤ tr.stopLoss ∧ (c.low ≤ tr.stopLoss ∨ tr.takeProfit ≤ c.high))
    (hshort : tr.direction = .SHORT →
      tr.stopLoss ≤ tr.entryPrice ∧ (tr.stopLoss ≤ c.high ∨ c.low ≤ tr.takeProfit)) :
    (simulateOpenTradeAtCandle tr c).rMultiple = none ∧
    (simulateOpenTradeAtCandle tr c).status = .CLOSED ∧
    ((simulateOpenTradeAtCandle tr c).exitPrice = some tr.stopLoss ∨
      (simulateOpenTradeAtCandle tr c).exitPrice = some tr.takeProfit) ∧
    ((simulateOpenTradeAtCandle tr c).exitReason = some ExitReason.SL ∨
      (simulateOpenTradeAtCandle tr c).exitReason = some ExitReason.TP) := by
  cases hdir : tr.direction with
  | LONG =>
    obtain ⟨hrisk, hhit⟩ := hlong hdir
    have hrisk' : ¬(0 < tr.entryPrice - tr.stopLoss) := by linarith
    rcases hhit with h | h
    · simp [simulateOpenTradeAtCandle, hopen, hdir, h, hrisk']
    · by_cases hsl : c.low ≤ tr.stopLoss <;>
        simp [simulateOpenTradeAtCandle, hopen, hdir, h, hsl, hrisk']
  | SHORT =>
    obtain ⟨hrisk, hhit⟩ := hshort hdir
    have hrisk' : ¬(0 < tr.stopLoss - tr.entryPrice) := by linarith
    rcases hhit with h | h
    · simp [simulateOpenTradeAtCandle, hopen, hdir, h, hrisk']
    · by_cases hsl : tr.stopLoss ≤ c.high <;>
        simp [simulateOpenTradeAtCandle, hopen, hdir, h, hsl, hrisk']

/-- Witness trade for C10: a LONG whose stop is above its entry. -/
def c10Trade : EngineTrade :=
  { c4Trade with entryPrice := 108 / 100, stopLoss := 109 / 100, takeProfit := 111 / 100 }

theorem claim_C10_witness :
    (simulateOpenTradeAtCandle c10Trade c4Candle).rMultiple = none ∧
    (simulateOpenTradeAtCandle c10Trade c4Candle).status = .CLOSED ∧
    ((simulateOpenTradeAtCandle c10Trade c4Candle).exitPrice = some c10Trade.stopLoss ∨
      (simulateOpenTradeAtCandle c10Trade c4Candle).exitPrice = some c10Trade.takeProfit) ∧
    ((simulateOpenTradeAtCandle c10Trade c4Candle).exitReason = some ExitReason.SL ∨
      (simulateOpenTradeAtCandle c10Trade c4Candle).exitReason = some ExitReason.TP) :=
  claim_C10_nonpositive_risk_skips_rMultiple c10Trade c4Candle (by decide)
    (fun _ => by
      constructor
      · norm_num [c10Trade, c4Trade]
      · left; norm_num [c10Trade, c4Trade, c4Candle])
    (fun h => by simp [c10Trade, c4Trade] at h)

/-- `strategy.ts` state labels (lines 17-25). -/
inductive MState where
  | WAIT_SWING_BOS
  | BEAR_WAIT_PULLBACK_START
  | BEAR_TRACK_PULLBACK
  | BEAR_WAIT_CONTINUATION_TRIGGER
  | BULL_WAIT_PULLBACK_START
  | BULL_TRACK_PULLBACK
  | BULL_WAIT_CONTINUATION_TRIGGER
  | IN_TRADE
deriving DecidableEq, Repr

/-- `strategy.ts` `OpenTradeRuntime` (lines 27-31). -/
structure OpenTradeRuntime where
  trade : EngineTrade
  signal : EngineSignal
  entryIndex : Nat
deriving DecidableEq, Repr

/-- The engine's mutable runtime (the closure-captured variables of
`runContinuationStrategy`, lines 102-126), together with the output
accumulators `signals`, `trades`, `events`. -/
structure EngineState where
  state : MState
  signals : List EngineSignal
  trades : List EngineTrade
  events : List EngineEvent
  confirmedFractals : List Fractal
  lastFSH : Option Fractal
  lastFSL : Option Fractal
  tradeRuntime : Option OpenTradeRuntime
  tBos : Int
  anchorLine : Px
  anchorIndex : Int
  causalExtreme : Px
  causalExtremeIndex : Int
  pbLevel : Px
  impulsePips : Px
  pullbackStartIndex : Int
  pullbackConfirmIndex : Int
  /-- `none` encodes the JS sentinel `Number.POSITIVE_INFINITY`. -/
  pbLow : Option Px
  /-- `none` encodes `Number.NEGATIVE_INFINITY`. -/
  pbHigh : Option Px
  /-- `none` encodes `Number.NaN` (checked via `Number.isFinite`). -/
  sLow : Option Px
  /-- `none` encodes `Number.NaN`. -/
  sHigh : Option Px
deriving DecidableEq, Repr

/-- Initial values of the engine runtime (lines 106-126). -/
def initialEngineState : EngineState :=
  { state := .WAIT_SWING_BOS
    signals := []
    trades := []
    events := []
    confirmedFractals := []
    lastFSH := none
    lastFSL := none
    tradeRuntime := none
    tBos := -1
    anchorLine := 0
    anchorIndex := -1
    causalExtreme := 0
    causalExtremeIndex := -1
    pbLevel := 0
    impulsePips := 0
    pullbackStartIndex := -1
    pullbackConfirmIndex := -1
    pbLow := none
    pbHigh := none
    sLow := none
    sHigh := none }

/-- `strategy.ts` `resetCycle` (lines 128-143): clears the cycle scalars and
returns to `WAIT_SWING_BOS`; it does not touch the fractal history, the
output accumulators or `tradeRuntime`. -/
def resetCycle (st : EngineState) : EngineState :=
  { st with
      state := .WAIT_SWING_BOS
      tBos := -1
      anchorLine := 0
      anchorIndex := -1
      causalExtreme := 0
      causalExtremeIndex := -1
      pbLevel := 0
      impulsePips := 0
      pullbackStartIndex := -1
      pullbackConfirmIndex := -1
      pbLow := none
      pbHigh := none
      sLow := none
      sHigh := none }

/-- The `for k in [lo, t]` maximum-high scan of `startBearCycleFromBosDown`
(lines 149-156).  `none` corresponds to an empty range, where the JS code
would keep `h = -Infinity`. -/
def scanMaxHigh (candles : Array Candle) (lo t : Nat) : Option (Px × Nat) :=
  (List.range' lo (t + 1 - lo)).foldl
    (fun (acc : Option (Px × Nat)) (k : Nat) =>
      let c := getC candles (k : Int)
      match acc with
      | none => some (c.high, k)
      | some (h, hIndex) => if h < c.high then some (c.high, k) else some (h, hIndex))
    none

/-- The minimum-low scan of `startBullCycleFromBosUp` (lines 183-190). -/
def scanMinLow (candles : Array Candle) (lo t : Nat) : Option (Px × Nat) :=
  (List.range' lo (t + 1 - lo)).foldl
    (fun (acc : Option (Px × Nat)) (k : Nat) =>
      let c := getC candles (k : Int)
      match acc with
      | none => some (c.low, k)
      | some (l, lIndex) => if c.low < l then some (c.low, k) else some (l, lIndex))
    none

/-- `strategy.ts` `startBearCycleFromBosDown` (lines 145-177). -/
def startBearCycleFromBosDown (candles : Array Candle) (t : Nat) (bLine : Px)
    (bIndex : Nat) (st : EngineState) : EngineState :=
  let st := { st with tBos := (t : Int), anchorLine := bLine, anchorIndex := (bIndex : Int) }
  match scanMaxHigh candles bIndex t with
  | some (h, hIndex) =>
    let st := { st with causalExtreme := h, causalExtremeIndex := (hIndex : Int) }
    let d := h - bLine
    if d < D_MIN then
      resetCycle { st with
        events := st.events ++
          [.cycleDiscarded (getC candles t).ts .SHORT (roundPips (d / PIP)) (roundPips (D_MIN / PIP))] }
    else
      { st with
          impulsePips := roundPips (d / PIP)
          pbLevel := (bLine + h) / 2
          pbLow := none
          sLow := none
          state := .BEAR_WAIT_PULLBACK_START }
  | none =>
    -- empty scan range: unreachable from the loop (`bIndex ≤ t` at every call
    -- site); the JS code would compute `d = -Infinity` and discard the cycle
    resetCycle { st with
      events := st.events ++ [.cycleDiscarded (getC candles t).ts .SHORT 0 (roundPips (D_MIN / PIP))] }

/-- `strategy.ts` `startBullCycleFromBosUp` (lines 179-211). -/
def startBullCycleFromBosUp (candles : Array Candle) (t : Nat) (aLine : Px)
    (aIndex : Nat) (st : EngineState) : EngineState :=
  let st := { st with tBos := (t : Int), anchorLine := aLine, anchorIndex := (aIndex : Int) }
  match scanMinLow candles aIndex t with
  | some (l, lIndex) =>
    let st := { st with causalExtreme := l, causalExtremeIndex := (lIndex : Int) }
    let d := aLine - l
    if d < D_MIN then
      resetCycle { st with
        events := st.events ++
          [.cycleDiscarded (getC candles t).ts .LONG (roundPips (d / PIP)) (roundPips (D_MIN / PIP))] }
    else
      { st with
          impulsePips := roundPips (d / PIP)
          pbLevel := (aLine + l) / 2
          pbHigh := none
          sHigh := none
          state := .BULL_WAIT_PULLBACK_START }
  | none =>
    resetCycle { st with
      events := st.events ++ [.cycleDiscarded (getC candles t).ts .LONG 0 (roundPips (D_MIN / PIP))] }

/-- C6: a break-of-structure whose impulse (causal extreme minus anchor) is
strictly below the 20-pip minimum discards the cycle: a `CYCLE_DISCARDED`
event is appended, the state returns to `WAIT_SWING_BOS`, and no signal is
emitted for the cycle (the signal list is untouched, in both directions). -/
theorem claim_C6_small_impulse_discards_cycle (candles : Array Candle) (t : Nat)
    (st : EngineState) (line : Px) (idx : Nat) (h hl : Px) (hIdx lIdx : Nat)
    (hbear : scanMaxHigh candles idx t = some (h, hIdx))
    (hbull : scanMinLow candles idx t = some (hl, lIdx))
    (hdbear : h - line < D_MIN)
    (hdbull : line - hl < D_MIN) :
    ((startBearCycleFromBosDown candles t line idx st).signals = st.signals ∧
      (startBearCycleFromBosDown candles t line idx st).state = .WAIT_SWING_BOS ∧
      (startBearCycleFromBosDown candles t line idx st).events = st.events ++
        [.cycleDiscarded (getC candles t).ts .SHORT (roundPips ((h - line) / PIP))
          (roundPips (D_MIN / PIP))]) ∧
    ((startBullCycleFromBosUp candles t line idx st).signals = st.signals ∧
      (startBullCycleFromBosUp candles t line idx st).state = .WAIT_SWING_BOS ∧
      (startBullCycleFromBosUp candles t line idx st).events = st.events ++
        [.cycleDiscarded (getC candles t).ts .LONG (roundPips ((line - hl) / PIP))
          (roundPips (D_MIN / PIP))]) := by
  constructor
  · simp [startBearCycleFromBosDown, hbear, hdbear, resetCycle]
  · simp [startBullCycleFromBosUp, hbull, hdbull, resetCycle]

/-- Concrete candles for the C6 witness: a one-candle "impulse" of 10 pips. -/
def c6Candles : Array Candle :=
  #[{ ts := "T0", «open» := 11 / 10, high := 11001 / 10000, low := 10999 / 10000, close := 11 / 10 }]

theorem claim_C6_witness :
    ((startBearCycleFromBosDown c6Candles 0 (11 / 10) 0 initialEngineState).signals =
        initialEngineState.signals ∧
      (startBearCycleFromBosDown c6Candles 0 (11 / 10) 0 initialEngineState).state =
        .WAIT_SWING_BOS ∧
      (startBearCycleFromBosDown c6Candles 0 (11 / 10) 0 initialEngineState).events =
        initialEngineState.events ++
          [.cycleDiscarded (getC c6Candles 0).ts .SHORT
            (roundPips ((11001 / 10000 - 11 / 10) / PIP)) (roundPips (D_MIN / PIP))]) ∧
    ((startBullCycleFromBosUp c6Candles 0 (11 / 10) 0 initialEngineState).signals =
        initialEngineState.signals ∧
      (startBullCycleFromBosUp c6Candles 0 (11 / 10) 0 initialEngineState).state =
        .WAIT_SWING_BOS ∧
      (startBullCycleFromBosUp c6Candles 0 (11 / 10) 0 initialEngineState).events =
        initialEngineState.events ++
          [.cycleDiscarded (getC c6Candles 0).ts .LONG
            (roundPips ((11 / 10 - 10999 / 10000) / PIP)) (roundPips (D_MIN / PIP))]) :=
  claim_C6_small_impulse_discards_cycle c6Candles 0 initialEngineState (11 / 10) 0
    (11001 / 10000) (10999 / 10000) 0 0
    (by norm_num [scanMaxHigh, c6Candles, getC, List.range'])
    (by norm_num [scanMinLow, c6Candles, getC, List.range'])
    (by norm_num [D_MIN, PIP]) (by norm_num [D_MIN, PIP])

/-- Fractal confirmation at the top of the candle loop (lines 254-259). -/
def applyFractalConfirmation (candles : Array Candle) (t : Nat) (st : EngineState) : EngineState :=
  match confirmFractalAt candles (t - 1) with
  | some f =>
    if f.confirmedAtIndex = t then
      { st with
          confirmedFractals := st.confirmedFractals ++ [f]
          lastFSH := match f.type with | .FSH => some f | .FSL => st.lastFSH
          lastFSL := match f.type with | .FSL => some f | .FSH => st.lastFSL }
    else st
  | none => st

/-- Second half of the `WAIT_SWING_BOS` case (lines 274-276): bull break. -/
def handleWaitSwingBosBull (candles : Array Candle) (t : Nat) (st : EngineState) : EngineState :=
  match st.lastFSH with
  | some fsh =>
    if fsh.price < (getC candles t).close then
      startBullCycleFromBosUp candles t fsh.price fsh.index st
    else st
  | none => st

/-- `WAIT_SWING_BOS` case (lines 269-278): bear break first, bull otherwise. -/
def handleWaitSwingBos (candles : Array Candle) (t : Nat) (st : EngineState) : EngineState :=
  match st.lastFSL with
  | some fsl =>
    if (getC candles t).close < fsl.price then
      startBearCycleFromBosDown candles t fsl.price fsl.index st
    else handleWaitSwingBosBull candles t st
  | none => handleWaitSwingBosBull candles t st

/-- `BEAR_WAIT_PULLBACK_START` case (lines 280-287). -/
def handleBearWaitPullbackStart (candles : Array Candle) (t : Nat) (st : EngineState) : EngineState :=
  let c := getC candles t
  match st.lastFSH with
  | some fsh =>
    if fsh.price < c.close then
      { st with pullbackStartIndex := (t : Int), pbLow := some c.low, state := .BEAR_TRACK_PULLBACK }
    else st
  | none => st

/-- `BEAR_TRACK_PULLBACK` case (lines 289-297); `pbLow = none` is `+Infinity`,
so `Math.min(pbLow, c.low)` is `c.low` in that case. -/
def handleBearTrackPullback (candles : Array Candle) (t : Nat) (st : EngineState) : EngineState :=
  let c := getC candles t
  let pbLow : Px :=
    match st.pbLow with
    | none => c.low
    | some v => min v c.low
  let st := { st with pbLow := some pbLow }
  if st.pbLevel < c.close then
    { st with
        sLow := some pbLow
        pullbackConfirmIndex := (t : Int)
        state := .BEAR_WAIT_CONTINUATION_TRIGGER }
  else st

/-- `BULL_WAIT_PULLBACK_START` case (lines 382-389). -/
def handleBullWaitPullbackStart (candles : Array Candle) (t : Nat) (st : EngineState) : EngineState :=
  let c := getC candles t
  match st.lastFSL with
  | some fsl =>
    if c.close < fsl.price then
      { st with pullbackStartIndex := (t : Int), pbHigh := some c.high, state := .BULL_TRACK_PULLBACK }
    else st
  | none => st

/-- `BULL_TRACK_PULLBACK` case (lines 391-399). -/
def handleBullTrackPullback (candles : Array Candle) (t : Nat) (st : EngineState) : EngineState :=
  let c := getC candles t
  let pbHigh : Px :=
    match st.pbHigh with
    | none => c.high
    | some v => max v c.high
  let st := { st with pbHigh := some pbHigh }
  if c.close < st.pbLevel then
    { st with
        sHigh := some pbHigh
        pullbackConfirmIndex := (t : Int)
        state := .BULL_WAIT_CONTINUATION_TRIGGER }
  else st

/-- The SHORT signal literal built at the bear continuation trigger
(lines 319-352). -/
def mkShortSignal (symbol timeframe : String) (candles : Array Candle) (t : Nat)
    (st : EngineState) (causeFSH : Fractal) (sLowV : Px) : EngineSignal :=
  let c := getC candles t
  let plannedEntryPrice :=
    if t + 1 < candles.size then some (roundPx (getC candles ((t : Int) + 1)).«open») else none
  { signalKey := buildSignalKey symbol timeframe "SHORT" c.ts
    strategyCode := STRATEGY_CODE
    symbol := symbol
    timeframe := timeframe
    direction := .SHORT
    bosTime := (getC candles st.tBos).ts
    triggerTime := c.ts
    plannedEntryTime := if t + 1 < candles.size then some (getC candles ((t : Int) + 1)).ts else none
    plannedEntryPrice := plannedEntryPrice
    entryStatus := match plannedEntryPrice with
      | none => EntryStatus.pending_next_open
      | some _ => EntryStatus.known_next_open
    stopLoss := roundPx (causeFSH.price + SL_BUFFER)
    takeProfit := roundPx sLowV
    impulsePips := st.impulsePips
    anchorLine := roundPx st.anchorLine
    causalExtreme := roundPx st.causalExtreme
    pbLevel := roundPx st.pbLevel
    pullbackSwingTarget := roundPx sLowV
    causeFractalType := .FSH
    causeFractalIndex := causeFSH.index
    triggerCandleIndex := t
    metrics :=
      { bosToPullbackStartCandles := st.pullbackStartIndex - st.tBos
        pullbackStartToConfirmCandles := st.pullbackConfirmIndex - st.pullbackStartIndex
        confirmToTriggerCandles := (t : Int) - st.pullbackConfirmIndex }
    payloadStateMachine := "BEAR" }

/-- The LONG signal literal built at the bull continuation trigger
(lines 421-454). -/
def mkLongSignal (symbol timeframe : String) (candles : Array Candle) (t : Nat)
    (st : EngineState) (causeFSL : Fractal) (sHighV : Px) : EngineSignal :=
  let c := getC candles t
  let plannedEntryPrice :=
    if t + 1 < candles.size then some (roundPx (getC candles ((t : Int) + 1)).«open») else none
  { signalKey := buildSignalKey symbol timeframe "LONG" c.ts
    strategyCode := STRATEGY_CODE
    symbol := symbol
    timeframe := timeframe
    direction := .LONG
    bosTime := (getC candles st.tBos).ts
    triggerTime := c.ts
    plannedEntryTime := if t + 1 < candles.size then some (getC candles ((t : Int) + 1)).ts else none
    plannedEntryPrice := plannedEntryPrice
    entryStatus := match plannedEntryPrice with
      | none => EntryStatus.pending_next_open
      | some _ => EntryStatus.known_next_open
    stopLoss := roundPx (causeFSL.price - SL_BUFFER)
    takeProfit := roundPx sHighV
    impulsePips := st.impulsePips
    anchorLine := roundPx st.anchorLine
    causalExtreme := roundPx st.causalExtreme
    pbLevel := roundPx st.pbLevel
    pullbackSwingTarget := roundPx sHighV
    causeFractalType := .FSL
    causeFractalIndex := causeFSL.index
    triggerCandleIndex := t
    metrics :=
      { bosToPullbackStartCandles := st.pullbackStartIndex - st.tBos
        pullbackStartToConfirmCandles := st.pullbackConfirmIndex - st.pullbackStartIndex
        confirmToTriggerCandles := (t : Int) - st.pullbackConfirmIndex }
    payloadStateMachine := "BULL" }

/-- Signal emission plus immediate trade derivation for a SHORT trigger
(lines 353-379): the trade exists only if the next candle does, otherwise
the cycle resets. -/
def emitShortSignalAndTrade (symbol timeframe : String) (candles : Array Candle) (t : Nat)
    (st : EngineState) (causeFSH : Fractal) (sLowV : Px) : EngineState :=
  let signal := mkShortSignal symbol timeframe candles t st causeFSH sLowV
  let st := { st with signals := st.signals ++ [signal] }
  if t + 1 < candles.size then
    let entry := getC candles ((t : Int) + 1)
    let trade : EngineTrade :=
      { tradeKey := buildTradeKey signal.signalKey
        signalKey := signal.signalKey
        symbol := symbol
        timeframe := timeframe
        direction := .SHORT
        entryTime := entry.ts
        entryPrice := roundPx entry.«open»
        stopLoss := signal.stopLoss
        takeProfit := signal.takeProfit
        exitTime := none
        exitPrice := none
        exitReason := none
        rMultiple := none
        status := .OPEN
        payloadEntryIndex := t + 1
        payloadTriggerIndex := t }
    { st with
        trades := st.trades ++ [trade]
        tradeRuntime := some { trade := trade, signal := signal, entryIndex := t + 1 }
        state := .IN_TRADE }
  else resetCycle st

/-- Signal emission plus immediate trade derivation for a LONG trigger
(lines 455-481). -/
def emitLongSignalAndTrade (symbol timeframe : String) (candles : Array Candle) (t : Nat)
    (st : EngineState) (causeFSL : Fractal) (sHighV : Px) : EngineState :=
  let signal := mkLongSignal symbol timeframe candles t st causeFSL sHighV
  let st := { st with signals := st.signals ++ [signal] }
  if t + 1 < candles.size then
    let entry := getC candles ((t : Int) + 1)
    let trade : EngineTrade :=
      { tradeKey := buildTradeKey signal.signalKey
        signalKey := signal.signalKey
        symbol := symbol
        timeframe := timeframe
        direction := .LONG
        entryTime := entry.ts
        entryPrice := roundPx entry.«open»
        stopLoss := signal.stopLoss
        takeProfit := signal.takeProfit
        exitTime := none
        exitPrice := none
        exitReason := none
        rMultiple := none
        status := .OPEN
        payloadEntryIndex := t + 1
        payloadTriggerIndex := t }
    { st with
        trades := st.trades ++ [trade]
        tradeRuntime := some { trade := trade, signal := signal, entryIndex := t + 1 }
        state := .IN_TRADE }
  else resetCycle st

/-- `BEAR_WAIT_CONTINUATION_TRIGGER` case (lines 299-380). -/
def handleBearTrigger (symbol timeframe : String) (candles : Array Candle) (t : Nat)
    (st : EngineState) : EngineState :=
  let c := getC candles t
  if st.causalExtreme < c.close ∧ 0 ≤ st.causalExtremeIndex then
    let st := { st with events := st.events ++
      [.structureFlip c.ts .BEARISH .BULLISH "Close above bearish causal extreme (H)"] }
    startBullCycleFromBosUp candles t st.causalExtreme st.causalExtremeIndex.toNat st
  else
    match st.lastFSL with
    | none => st
    | some fsl =>
      if fsl.price ≤ c.close then st
      else
        match lastConfirmedOfType st.confirmedFractals .FSH t true, st.sLow with
        | some causeFSH, some sLowV =>
          emitShortSignalAndTrade symbol timeframe candles t st causeFSH sLowV
        | some _, none => resetCycle st
        | none, _ => resetCycle st

/-- `BULL_WAIT_CONTINUATION_TRIGGER` case (lines 401-482). -/
def handleBullTrigger (symbol timeframe : String) (candles : Array Candle) (t : Nat)
    (st : EngineState) : EngineState :=
  let c := getC candles t
  if c.close < st.causalExtreme ∧ 0 ≤ st.causalExtremeIndex then
    let st := { st with events := st.events ++
      [.structureFlip c.ts .BULLISH .BEARISH "Close below bullish causal extreme (L)"] }
    startBearCycleFromBosDown candles t st.causalExtreme st.causalExtremeIndex.toNat st
  else
    match st.lastFSH with
    | none => st
    | some fsh =>
      if c.close ≤ fsh.price then st
      else
        match lastConfirmedOfType st.confirmedFractals .FSL t true, st.sHigh with
        | some causeFSL, some sHighV =>
          emitLongSignalAndTrade symbol timeframe candles t st causeFSL sHighV
        | some _, none => resetCycle st
        | none, _ => resetCycle st

/-- The open trade mutated by `simulateOpenTradeAtCandle` is always the most
recently pushed element of `trades` (no trade can be pushed while `IN_TRADE`),
so the JS in-place mutation is a last-element replacement. -/
def updateLastTrade (trades : List EngineTrade) (tr : EngineTrade) : List EngineTrade :=
  trades.dropLast ++ [tr]

/-- The stateful wrapper of `simulateOpenTradeAtCandle`: guards of lines
214-219 plus the close bookkeeping of lines 232-234 and 248-250. -/
def simulateStep (candles : Array Candle) (t : Nat) (st : EngineState) : EngineState :=
  match st.tradeRuntime with
  | none => st
  | some rt =>
    if t < rt.entryIndex then st
    else
      match rt.trade.status with
      | .CLOSED => st
      | .OPEN =>
        let tr := simulateOpenTradeAtCandle rt.trade (getC candles t)
        match tr.status with
        | .CLOSED =>
          resetCycle { st with trades := updateLastTrade st.trades tr, tradeRuntime := none }
        | .OPEN => st

/-- The `switch (state)` of the loop body (lines 268-486). -/
def stepSwitch (symbol timeframe : String) (candles : Array Candle) (t : Nat)
    (st : EngineState) : EngineState :=
  match st.state with
  | .WAIT_SWING_BOS => handleWaitSwingBos candles t st
  | .BEAR_WAIT_PULLBACK_START => handleBearWaitPullbackStart candles t st
  | .BEAR_TRACK_PULLBACK => handleBearTrackPullback candles t st
  | .BEAR_WAIT_CONTINUATION_TRIGGER => handleBearTrigger symbol timeframe candles t st
  | .BULL_WAIT_PULLBACK_START => handleBullWaitPullbackStart candles t st
  | .BULL_TRACK_PULLBACK => handleBullTrackPullback candles t st
  | .BULL_WAIT_CONTINUATION_TRIGGER => handleBullTrigger symbol timeframe candles t st
  | .IN_TRADE => st

/-- One iteration of the candle loop (lines 253-487): fractal confirmation,
in-trade simulation with `continue` when the trade stays open, then the
state switch. -/
def stepAt (symbol timeframe : String) (candles : Array Candle) (t : Nat)
    (st : EngineState) : EngineState :=
  let st := applyFractalConfirmation candles t st
  match st.state with
  | .IN_TRADE =>
    let st2 := simulateStep candles t st
    match st2.state with
    | .IN_TRADE => st2
    | _ => stepSwitch symbol timeframe candles t st2
  | _ => stepSwitch symbol timeframe candles t st

/-- Iterate `stepAt` a given number of times starting at candle index `t`. -/
def runStepsFuel (symbol timeframe : String) (candles : Array Candle) :
    Nat → Nat → EngineState → EngineState
  | 0, _, st => st
  | n + 1, t, st =>
    runStepsFuel symbol timeframe candles n (t + 1) (stepAt symbol timeframe candles t st)

/-- Run the candle loop over indices `[t, stop)`. -/
def runSteps (symbol timeframe : String) (candles : Array Candle) (t stop : Nat)
    (st : EngineState) : EngineState :=
  runStepsFuel symbol timeframe candles (stop - t) t st

/-- `strategy.ts` `computeBias` (lines 90-94). -/
def computeBias : MState → Bias
  | .BEAR_WAIT_PULLBACK_START => .BEARISH
  | .BEAR_TRACK_PULLBACK => .BEARISH
  | .BEAR_WAIT_CONTINUATION_TRIGGER => .BEARISH
  | .BULL_WAIT_PULLBACK_START => .BULLISH
  | .BULL_TRACK_PULLBACK => .BULLISH
  | .BULL_WAIT_CONTINUATION_TRIGGER => .BULLISH
  | _ => .NEUTRAL

/-- `types.ts` `EngineRuntimeSnapshot`. -/
structure EngineRuntimeSnapshot where
  strategyCode : String
  symbol : String
  timeframe : String
  bias : Bias
  state : MState
  lastCandleTs : Option String
  lastFSHPrice : Option Px
  lastFSLPrice : Option Px
  anchorLine : Option Px
  anchorIndex : Option Int
  causalExtreme : Option Px
  causalExtremeIndex : Option Int
  midpointLevel : Option Px
  impulsePips : Option Px
  pullbackStartIndex : Option Int
  pullbackConfirmIndex : Option Int
  pbLow : Option Px
  pbHigh : Option Px
  sLow : Option Px
  sHigh : Option Px
  activeTradeKey : Option String
deriving DecidableEq, Repr

/-- The snapshot literal built at the end of the run (lines 489-514). -/
def buildRuntimeSnapshot (symbol timeframe : String) (candles : Array Candle)
    (st : EngineState) : EngineRuntimeSnapshot :=
  { strategyCode := STRATEGY_CODE
    symbol := symbol
    timeframe := timeframe
    bias :=
      match st.state with
      | .IN_TRADE =>
        match st.tradeRuntime with
        | some rt =>
          match rt.signal.direction with
          | .LONG => Bias.BULLISH
          | .SHORT => Bias.BEARISH
        | none => Bias.BEARISH
      | s => computeBias s
    state := st.state
    lastCandleTs :=
      if 0 < candles.size then some (getC candles ((candles.size : Int) - 1)).ts else none
    lastFSHPrice := st.lastFSH.map (fun f => roundPx f.price)
    lastFSLPrice := st.lastFSL.map (fun f => roundPx f.price)
    anchorLine := if 0 ≤ st.anchorIndex then some (roundPx st.anchorLine) else none
    anchorIndex := if 0 ≤ st.anchorIndex then some st.anchorIndex else none
    causalExtreme := if 0 ≤ st.causalExtremeIndex then some (roundPx st.causalExtreme) else none
    causalExtremeIndex := if 0 ≤ st.causalExtremeIndex then some st.causalExtremeIndex else none
    midpointLevel := if 0 ≤ st.anchorIndex then some (roundPx st.pbLevel) else none
    impulsePips := if 0 ≤ st.anchorIndex then some st.impulsePips else none
    pullbackStartIndex := if 0 ≤ st.pullbackStartIndex then some st.pullbackStartIndex else none
    pullbackConfirmIndex :=
      if 0 ≤ st.pullbackConfirmIndex then some st.pullbackConfirmIndex else none
    pbLow := st.pbLow.map roundPx
    pbHigh := st.pbHigh.map roundPx
    sLow := st.sLow.map roundPx
    sHigh := st.sHigh.map roundPx
    activeTradeKey := st.tradeRuntime.map (fun rt => rt.trade.tradeKey) }

/-- `types.ts` `EngineRunResult`. -/
structure EngineRunResult where
  signals : List EngineSignal
  trades : List EngineTrade
  runtime : EngineRuntimeSnapshot
  events : List EngineEvent
deriving DecidableEq, Repr

/-- `strategy.ts` `runContinuationStrategy` (lines 96-517). -/
def runContinuationStrategy (symbol timeframe : String) (candles : Array Candle) :
    EngineRunResult :=
  let st := runSteps symbol timeframe candles 0 candles.size initialEngineState
  { signals := st.signals
    trades := st.trades
    runtime := buildRuntimeSnapshot symbol timeframe candles st
    events := st.events }

/-- Modelled from the spec: the repository contains no code that resumes the
engine from a persisted `RuntimeSnapshot` (the edge function always replays
the full candle window), so resumption is modelled from §3/§4.1 of the spec:
the engine's internal state is reconstructed from exactly the fields the
persisted snapshot carries (current state, bias, cycle scalars, pullback
bounds, active trade key).  Data the snapshot does not carry has no
persisted source and is initialized like a fresh engine: the confirmed
fractal history is empty, the pivot indices of `lastFSH`/`lastFSL` are
unknown (0), the BOS candle index `tBos` is unknown (-1), and the open
trade runtime cannot be rebuilt from the bare trade key. -/
def resumeEngineStateFromSnapshot (snap : EngineRuntimeSnapshot) : EngineState :=
  { initialEngineState with
      state := snap.state
      lastFSH := snap.lastFSHPrice.map
        (fun p => { type := .FSH, index := 0, price := p, confirmedAtIndex := 0 })
      lastFSL := snap.lastFSLPrice.map
        (fun p => { type := .FSL, index := 0, price := p, confirmedAtIndex := 0 })
      anchorLine := snap.anchorLine.getD 0
      anchorIndex := snap.anchorIndex.getD (-1)
      causalExtreme := snap.causalExtreme.getD 0
      causalExtremeIndex := snap.causalExtremeIndex.getD (-1)
      pbLevel := snap.midpointLevel.getD 0
      impulsePips := snap.impulsePips.getD 0
      pullbackStartIndex := snap.pullbackStartIndex.getD (-1)
      pullbackConfirmIndex := snap.pullbackConfirmIndex.getD (-1)
      pbLow := snap.pbLow
      pbHigh := snap.pbHigh
      sLow := snap.sLow
      sHigh := snap.sHigh }

/-- Modelled from the spec: run the Pattern Engine over the remaining candles
starting from a persisted snapshot (spec §8: "replaying from a persisted
RuntimeSnapshot plus the remaining candles"). -/
def resumeContinuationStrategy (snap : EngineRuntimeSnapshot) (candles : Array Candle) :
    EngineRunResult :=
  let st := runSteps snap.symbol snap.timeframe candles 0 candles.size
    (resumeEngineStateFromSnapshot snap)
  { signals := st.signals
    trades := st.trades
    runtime := buildRuntimeSnapshot snap.symbol snap.timeframe candles st
    events := st.events }

end FxNola
namespace FxNola

def cexPrefix : Array Candle :=
  #[{ ts := "T0", «open» := 11000/10000, high := 11010/10000, low := 10990/10000, close := 11000/10000 },
    { ts := "T1", «open» := 11000/10000, high := 11005/10000, low := 10950/10000, close := 10990/10000 },
    { ts := "T2", «open» := 10990/10000, high := 11040/10000, low := 10970/10000, close := 10985/10000 },
    { ts := "T3", «open» := 10965/10000, high := 10970/10000, low := 10940/10000, close := 10945/10000 },
    { ts := "T4", «open» := 10945/10000, high := 10980/10000, low := 10945/10000, close := 10950/10000 },
    { ts := "T5", «open» := 10950/10000, high := 10960/10000, low := 10948/10000, close := 10955/10000 },
    { ts := "T6", «open» := 10955/10000, high := 10990/10000, low := 10955/10000, close := 10985/10000 },
    { ts := "T7", «open» := 10985/10000, high := 11000/10000, low := 10980/10000, close := 10998/10000 }]

def cexSuffix : Array Candle :=
  #[{ ts := "T8", «open» := 10998/10000, high := 11005/10000, low := 10930/10000, close := 10935/10000 },
    { ts := "T9", «open» := 10935/10000, high := 10950/10000, low := 10920/10000, close := 10930/10000 }]

def cexCandles : Array Candle :=
  #[{ ts := "T0", «open» := 11000/10000, high := 11010/10000, low := 10990/10000, close := 11000/10000 },
    { ts := "T1", «open» := 11000/10000, high := 11005/10000, low := 10950/10000, close := 10990/10000 },
    { ts := "T2", «open» := 10990/10000, high := 11040/10000, low := 10970/10000, close := 10985/10000 },
    { ts := "T3", «open» := 10965/10000, high := 10970/10000, low := 10940/10000, close := 10945/10000 },
    { ts := "T4", «open» := 10945/10000, high := 10980/10000, low := 10945/10000, close := 10950/10000 },
    { ts := "T5", «open» := 10950/10000, high := 10960/10000, low := 10948/10000, close := 10955/10000 },
    { ts := "T6", «open» := 10955/10000, high := 10990/10000, low := 10955/10000, close := 10985/10000 },
    { ts := "T7", «open» := 10985/10000, high := 11000/10000, low := 10980/10000, close := 10998/10000 },
    { ts := "T8", «open» := 10998/10000, high := 11005/10000, low := 10930/10000, close := 10935/10000 },
    { ts := "T9", «open» := 10935/10000, high := 10950/10000, low := 10920/10000, close := 10930/10000 }]

lemma cexCandles_eq : cexCandles = cexPrefix ++ cexSuffix := rfl

lemma cexSize : cexCandles.size = 10 := rfl

lemma pfxSize : cexPrefix.size = 8 := rfl

lemma sfxSize : cexSuffix.size = 2 := rfl

lemma cexGet0 : getC cexCandles 0 = { ts := "T0", «open» := 11000/10000, high := 11010/10000, low := 10990/10000, close := 11000/10000 } := rfl

lemma pfxGet0 : getC cexPrefix 0 = { ts := "T0", «open» := 11000/10000, high := 11010/10000, low := 10990/10000, close := 11000/10000 } := rfl

lemma cexGet1 : getC cexCandles 1 = { ts := "T1", «open» := 11000/10000, high := 11005/10000, low := 10950/10000, close := 10990/10000 } := rfl

lemma pfxGet1 : getC cexPrefix 1 = { ts := "T1", «open» := 11000/10000, high := 11005/10000, low := 10950/10000, close := 10990/10000 } := rfl

lemma cexGet2 : getC cexCandles 2 = { ts := "T2", «open» := 10990/10000, high := 11040/10000, low := 10970/10000, close := 10985/10000 } := rfl

lemma pfxGet2 : getC cexPrefix 2 = { ts := "T2", «open» := 10990/10000, high := 11040/10000, low := 10970/10000, close := 10985/10000 } := rfl

lemma cexGet3 : getC cexCandles 3 = { ts := "T3", «open» := 10965/10000, high := 10970/10000, low := 10940/10000, close := 10945/10000 } := rfl

lemma pfxGet3 : getC cexPrefix 3 = { ts := "T3", «open» := 10965/10000, high := 10970/10000, low := 10940/10000, close := 10945/10000 } := rfl

lemma cexGet4 : getC cexCandles 4 = { ts := "T4", «open» := 10945/10000, high := 10980/10000, low := 10945/10000, close := 10950/10000 } := rfl

lemma pfxGet4 : getC cexPrefix 4 = { ts := "T4", «open» := 10945/10000, high := 10980/10000, low := 10945/10000, close := 10950/10000 } := rfl

lemma cexGet5 : getC cexCandles 5 = { ts := "T5", «open» := 10950/10000, high := 10960/10000, low := 10948/10000, close := 10955/10000 } := rfl

lemma pfxGet5 : getC cexPrefix 5 = { ts := "T5", «open» := 10950/10000, high := 10960/10000, low := 10948/10000, close := 10955/10000 } := rfl

lemma cexGet6 : getC cexCandles 6 = { ts := "T6", «open» := 10955/10000, high := 10990/10000, low := 10955/10000, close := 10985/10000 } := rfl

lemma pfxGet6 : getC cexPrefix 6 = { ts := "T6", «open» := 10955/10000, high := 10990/10000, low := 10955/10000, close := 10985/10000 } := rfl

lemma cexGet7 : getC cexCandles 7 = { ts := "T7", «open» := 10985/10000, high := 11000/10000, low := 10980/10000, close := 10998/10000 } := rfl

lemma pfxGet7 : getC cexPrefix 7 = { ts := "T7", «open» := 10985/10000, high := 11000/10000, low := 10980/10000, close := 10998/10000 } := rfl

lemma cexGet8 : getC cexCandles 8 = { ts := "T8", «open» := 10998/10000, high := 11005/10000, low := 10930/10000, close := 10935/10000 } := rfl

lemma sfxGet0 : getC cexSuffix 0 = { ts := "T8", «open» := 10998/10000, high := 11005/10000, low := 10930/10000, close := 10935/10000 } := rfl

lemma cexGet9 : getC cexCandles 9 = { ts := "T9", «open» := 10935/10000, high := 10950/10000, low := 10920/10000, close := 10930/10000 } := rfl

lemma sfxGet1 : getC cexSuffix 1 = { ts := "T9", «open» := 10935/10000, high := 10950/10000, low := 10920/10000, close := 10930/10000 } := rfl

end FxNola
namespace FxNola

def cexState1 : EngineState :=
  { state := FxNola.MState.WAIT_SWING_BOS, signals := [], trades := [], events := [], confirmedFractals := [], lastFSH := none, lastFSL := none, tradeRuntime := none, tBos := -1, anchorLine := 0, anchorIndex := -1, causalExtreme := 0, causalExtremeIndex := -1, pbLevel := 0, impulsePips := 0, pullbackStartIndex := -1, pullbackConfirmIndex := -1, pbLow := none, pbHigh := none, sLow := none, sHigh := none }

def cexState2 : EngineState :=
  { state := FxNola.MState.WAIT_SWING_BOS, signals := [], trades := [], events := [], confirmedFractals := [], lastFSH := none, lastFSL := none, tradeRuntime := none, tBos := -1, anchorLine := 0, anchorIndex := -1, causalExtreme := 0, causalExtremeIndex := -1, pbLevel := 0, impulsePips := 0, pullbackStartIndex := -1, pullbackConfirmIndex := -1, pbLow := none, pbHigh := none, sLow := none, sHigh := none }

def cexState3 : EngineState :=
  { state := FxNola.MState.WAIT_SWING_BOS, signals := [], trades := [], events := [], confirmedFractals := [{ type := FxNola.FractalType.FSL, index := 1, price := (219 : Rat)/200, confirmedAtIndex := 2 }], lastFSH := none, lastFSL := some { type := FxNola.FractalType.FSL, index := 1, price := (219 : Rat)/200, confirmedAtIndex := 2 }, tradeRuntime := none, tBos := -1, anchorLine := 0, anchorIndex := -1, causalExtreme := 0, causalExtremeIndex := -1, pbLevel := 0, impulsePips := 0, pullbackStartIndex := -1, pullbackConfirmIndex := -1, pbLow := none, pbHigh := none, sLow := none, sHigh := none }

def cexState4 : EngineState :=
  { state := FxNola.MState.BEAR_WAIT_PULLBACK_START, signals := [], trades := [], events := [], confirmedFractals := [{ type := FxNola.FractalType.FSL, index := 1, price := (219 : Rat)/200, confirmedAtIndex := 2 }, { type := FxNola.FractalType.FSH, index := 2, price := (138 : Rat)/125, confirmedAtIndex := 3 }], lastFSH := some { type := FxNola.FractalType.FSH, index := 2, price := (138 : Rat)/125, confirmedAtIndex := 3 }, lastFSL := some { type := FxNola.FractalType.FSL, index := 1, price := (219 : Rat)/200, confirmedAtIndex := 2 }, tradeRuntime := none, tBos := 3, anchorLine := (219 : Rat)/200, anchorIndex := 1, causalExtreme := (138 : Rat)/125, causalExtremeIndex := 2, pbLevel := (2199 : Rat)/2000, impulsePips := 90, pullbackStartIndex := -1, pullbackConfirmIndex := -1, pbLow := none, pbHigh := none, sLow := none, sHigh := none }

def cexState5 : EngineState :=
  { state := FxNola.MState.BEAR_WAIT_PULLBACK_START, signals := [], trades := [], events := [], confirmedFractals := [{ type := FxNola.FractalType.FSL, index := 1, price := (219 : Rat)/200, confirmedAtIndex := 2 }, { type := FxNola.FractalType.FSH, index := 2, price := (138 : Rat)/125, confirmedAtIndex := 3 }, { type := FxNola.FractalType.FSL, index := 3, price := (547 : Rat)/500, confirmedAtIndex := 4 }], lastFSH := some { type := FxNola.FractalType.FSH, index := 2, price := (138 : Rat)/125, confirmedAtIndex := 3 }, lastFSL := some { type := FxNola.FractalType.FSL, index := 3, price := (547 : Rat)/500, confirmedAtIndex := 4 }, tradeRuntime := none, tBos := 3, anchorLine := (219 : Rat)/200, anchorIndex := 1, causalExtreme := (138 : Rat)/125, causalExtremeIndex := 2, pbLevel := (2199 : Rat)/2000, impulsePips := 90, pullbackStartIndex := -1, pullbackConfirmIndex := -1, pbLow := none, pbHigh := none, sLow := none, sHigh := none }

def cexState6 : EngineState :=
  { state := FxNola.MState.BEAR_WAIT_PULLBACK_START, signals := [], trades := [], events := [], confirmedFractals := [{ type := FxNola.FractalType.FSL, index := 1, price := (219 : Rat)/200, confirmedAtIndex := 2 }, { type := FxNola.FractalType.FSH, index := 2, price := (138 : Rat)/125, confirmedAtIndex := 3 }, { type := FxNola.FractalType.FSL, index := 3, price := (547 : Rat)/500, confirmedAtIndex := 4 }, { type := FxNola.FractalType.FSH, index := 4, price := (549 : Rat)/500, confirmedAtIndex := 5 }], lastFSH := some { type := FxNola.FractalType.FSH, index := 4, price := (549 : Rat)/500, confirmedAtIndex := 5 }, lastFSL := some { type := FxNola.FractalType.FSL, index := 3, price := (547 : Rat)/500, confirmedAtIndex := 4 }, tradeRuntime := none, tBos := 3, anchorLine := (219 : Rat)/200, anchorIndex := 1, causalExtreme := (138 : Rat)/125, causalExtremeIndex := 2, pbLevel := (2199 : Rat)/2000, impulsePips := 90, pullbackStartIndex := -1, pullbackConfirmIndex := -1, pbLow := none, pbHigh := none, sLow := none, sHigh := none }

def cexState7 : EngineState :=
  { state := FxNola.MState.BEAR_TRACK_PULLBACK, signals := [], trades := [], events := [], confirmedFractals := [{ type := FxNola.FractalType.FSL, index := 1, price := (219 : Rat)/200, confirmedAtIndex := 2 }, { type := FxNola.FractalType.FSH, index := 2, price := (138 : Rat)/125, confirmedAtIndex := 3 }, { type := FxNola.FractalType.FSL, index := 3, price := (547 : Rat)/500, confirmedAtIndex := 4 }, { type := FxNola.FractalType.FSH, index := 4, price := (549 : Rat)/500, confirmedAtIndex := 5 }], lastFSH := some { type := FxNola.FractalType.FSH, index := 4, price := (549 : Rat)/500, confirmedAtIndex := 5 }, lastFSL := some { type := FxNola.FractalType.FSL, index := 3, price := (547 : Rat)/500, confirmedAtIndex := 4 }, tradeRuntime := none, tBos := 3, anchorLine := (219 : Rat)/200, anchorIndex := 1, causalExtreme := (138 : Rat)/125, causalExtremeIndex := 2, pbLevel := (2199 : Rat)/2000, impulsePips := 90, pullbackStartIndex := 6, pullbackConfirmIndex := -1, pbLow := some ((2191 : Rat)/2000), pbHigh := none, sLow := none, sHigh := none }

def cexState8 : EngineState :=
  { state := FxNola.MState.BEAR_WAIT_CONTINUATION_TRIGGER, signals := [], trades := [], events := [], confirmedFractals := [{ type := FxNola.FractalType.FSL, index := 1, price := (219 : Rat)/200, confirmedAtIndex := 2 }, { type := FxNola.FractalType.FSH, index := 2, price := (138 : Rat)/125, confirmedAtIndex := 3 }, { type := FxNola.FractalType.FSL, index := 3, price := (547 : Rat)/500, confirmedAtIndex := 4 }, { type := FxNola.FractalType.FSH, index := 4, price := (549 : Rat)/500, confirmedAtIndex := 5 }], lastFSH := some { type := FxNola.FractalType.FSH, index := 4, price := (549 : Rat)/500, confirmedAtIndex := 5 }, lastFSL := some { type := FxNola.FractalType.FSL, index := 3, price := (547 : Rat)/500, confirmedAtIndex := 4 }, tradeRuntime := none, tBos := 3, anchorLine := (219 : Rat)/200, anchorIndex := 1, causalExtreme := (138 : Rat)/125, causalExtremeIndex := 2, pbLevel := (2199 : Rat)/2000, impulsePips := 90, pullbackStartIndex := 6, pullbackConfirmIndex := 7, pbLow := some ((2191 : Rat)/2000), pbHigh := none, sLow := some ((2191 : Rat)/2000), sHigh := none }

def cexState9 : EngineState :=
  { state := FxNola.MState.IN_TRADE, signals := [{ signalKey := "eurusd_m15_continuation_v1:EUR/USD:15min:SHORT:T8", strategyCode := "eurusd_m15_continuation_v1", symbol := "EUR/USD", timeframe := "15min", direction := FxNola.Direction.SHORT, bosTime := "T3", triggerTime := "T8", plannedEntryTime := some "T9", plannedEntryPrice := some ((2187 : Rat)/2000), entryStatus := FxNola.EntryStatus.known_next_open, stopLoss := (10983 : Rat)/10000, takeProfit := (2191 : Rat)/2000, impulsePips := 90, anchorLine := (219 : Rat)/200, causalExtreme := (138 : Rat)/125, pbLevel := (2199 : Rat)/2000, pullbackSwingTarget := (2191 : Rat)/2000, causeFractalType := FxNola.FractalType.FSH, causeFractalIndex := 4, triggerCandleIndex := 8, metrics := { bosToPullbackStartCandles := 3, pullbackStartToConfirmCandles := 1, confirmToTriggerCandles := 1 }, payloadStateMachine := "BEAR" }], trades := [{ tradeKey := "eurusd_m15_continuation_v1:EUR/USD:15min:SHORT:T8:trade", signalKey := "eurusd_m15_continuation_v1:EUR/USD:15min:SHORT:T8", symbol := "EUR/USD", timeframe := "15min", direction := FxNola.Direction.SHORT, entryTime := "T9", entryPrice := (2187 : Rat)/2000, stopLoss := (10983 : Rat)/10000, takeProfit := (2191 : Rat)/2000, exitTime := none, exitPrice := none, exitReason := none, rMultiple := none, status := FxNola.TradeStatus.OPEN, payloadEntryIndex := 9, payloadTriggerIndex := 8 }], events := [], confirmedFractals := [{ type := FxNola.FractalType.FSL, index := 1, price := (219 : Rat)/200, confirmedAtIndex := 2 }, { type := FxNola.FractalType.FSH, index := 2, price := (138 : Rat)/125, confirmedAtIndex := 3 }, { type := FxNola.FractalType.FSL, index := 3, price := (547 : Rat)/500, confirmedAtIndex := 4 }, { type := FxNola.FractalType.FSH, index := 4, price := (549 : Rat)/500, confirmedAtIndex := 5 }], lastFSH := some { type := FxNola.FractalType.FSH, index := 4, price := (549 : Rat)/500, confirmedAtIndex := 5 }, lastFSL := some { type := FxNola.FractalType.FSL, index := 3, price := (547 : Rat)/500, confirmedAtIndex := 4 }, tradeRuntime := some { trade := { tradeKey := "eurusd_m15_continuation_v1:EUR/USD:15min:SHORT:T8:trade", signalKey := "eurusd_m15_continuation_v1:EUR/USD:15min:SHORT:T8", symbol := "EUR/USD", timeframe := "15min", direction := FxNola.Direction.SHORT, entryTime := "T9", entryPrice := (2187 : Rat)/2000, stopLoss := (10983 : Rat)/10000, takeProfit := (2191 : Rat)/2000, exitTime := none, exitPrice := none, exitReason := none, rMultiple := none, status := FxNola.TradeStatus.OPEN, payloadEntryIndex := 9, payloadTriggerIndex := 8 }, signal := { signalKey := "eurusd_m15_continuation_v1:EUR/USD:15min:SHORT:T8", strategyCode := "eurusd_m15_continuation_v1", symbol := "EUR/USD", timeframe := "15min", direction := FxNola.Direction.SHORT, bosTime := "T3", triggerTime := "T8", plannedEntryTime := some "T9", plannedEntryPrice := some ((2187 : Rat)/2000), entryStatus := FxNola.EntryStatus.known_next_open, stopLoss := (10983 : Rat)/10000, takeProfit := (2191 : Rat)/2000, impulsePips := 90, anchorLine := (219 : Rat)/200, causalExtreme := (138 : Rat)/125, pbLevel := (2199 : Rat)/2000, pullbackSwingTarget := (2191 : Rat)/2000, causeFractalType := FxNola.FractalType.FSH, causeFractalIndex := 4, triggerCandleIndex := 8, metrics := { bosToPullbackStartCandles := 3, pullbackStartToConfirmCandles := 1, confirmToTriggerCandles := 1 }, payloadStateMachine := "BEAR" }, entryIndex := 9 }, tBos := 3, anchorLine := (219 : Rat)/200, anchorIndex := 1, causalExtreme := (138 : Rat)/125, causalExtremeIndex := 2, pbLevel := (2199 : Rat)/2000, impulsePips := 90, pullbackStartIndex := 6, pullbackConfirmIndex := 7, pbLow := some ((2191 : Rat)/2000), pbHigh := none, sLow := some ((2191 : Rat)/2000), sHigh := none }

def cexState10 : EngineState :=
  { state := FxNola.MState.BEAR_WAIT_PULLBACK_START, signals := [{ signalKey := "eurusd_m15_continuation_v1:EUR/USD:15min:SHORT:T8", strategyCode := "eurusd_m15_continuation_v1", symbol := "EUR/USD", timeframe := "15min", direction := FxNola.Direction.SHORT, bosTime := "T3", triggerTime := "T8", plannedEntryTime := some "T9", plannedEntryPrice := some ((2187 : Rat)/2000), entryStatus := FxNola.EntryStatus.known_next_open, stopLoss := (10983 : Rat)/10000, takeProfit := (2191 : Rat)/2000, impulsePips := 90, anchorLine := (219 : Rat)/200, causalExtreme := (138 : Rat)/125, pbLevel := (2199 : Rat)/2000, pullbackSwingTarget := (2191 : Rat)/2000, causeFractalType := FxNola.FractalType.FSH, causeFractalIndex := 4, triggerCandleIndex := 8, metrics := { bosToPullbackStartCandles := 3, pullbackStartToConfirmCandles := 1, confirmToTriggerCandles := 1 }, payloadStateMachine := "BEAR" }], trades := [{ tradeKey := "eurusd_m15_continuation_v1:EUR/USD:15min:SHORT:T8:trade", signalKey := "eurusd_m15_continuation_v1:EUR/USD:15min:SHORT:T8", symbol := "EUR/USD", timeframe := "15min", direction := FxNola.Direction.SHORT, entryTime := "T9", entryPrice := (2187 : Rat)/2000, stopLoss := (10983 : Rat)/10000, takeProfit := (2191 : Rat)/2000, exitTime := some "T9", exitPrice := some ((2191 : Rat)/2000), exitReason := some (FxNola.ExitReason.TP), rMultiple := some ((-21 : Rat)/50), status := FxNola.TradeStatus.CLOSED, payloadEntryIndex := 9, payloadTriggerIndex := 8 }], events := [], confirmedFractals := [{ type := FxNola.FractalType.FSL, index := 1, price := (219 : Rat)/200, confirmedAtIndex := 2 }, { type := FxNola.FractalType.FSH, index := 2, price := (138 : Rat)/125, confirmedAtIndex := 3 }, { type := FxNola.FractalType.FSL, index := 3, price := (547 : Rat)/500, confirmedAtIndex := 4 }, { type := FxNola.FractalType.FSH, index := 4, price := (549 : Rat)/500, confirmedAtIndex := 5 }, { type := FxNola.FractalType.FSH, index := 8, price := (2201 : Rat)/2000, confirmedAtIndex := 9 }], lastFSH := some { type := FxNola.FractalType.FSH, index := 8, price := (2201 : Rat)/2000, confirmedAtIndex := 9 }, lastFSL := some { type := FxNola.FractalType.FSL, index := 3, price := (547 : Rat)/500, confirmedAtIndex := 4 }, tradeRuntime := none, tBos := 9, anchorLine := (547 : Rat)/500, anchorIndex := 3, causalExtreme := (2201 : Rat)/2000, causalExtremeIndex := 8, pbLevel := (4389 : Rat)/4000, impulsePips := 65, pullbackStartIndex := -1, pullbackConfirmIndex := -1, pbLow := none, pbHigh := none, sLow := none, sHigh := none }

def cexSnap8 : EngineRuntimeSnapshot :=
  { strategyCode := "eurusd_m15_continuation_v1", symbol := "EUR/USD", timeframe := "15min", bias := FxNola.Bias.BEARISH, state := FxNola.MState.BEAR_WAIT_CONTINUATION_TRIGGER, lastCandleTs := some "T7", lastFSHPrice := some ((549 : Rat)/500), lastFSLPrice := some ((547 : Rat)/500), anchorLine := some ((219 : Rat)/200), anchorIndex := some 1, causalExtreme := some ((138 : Rat)/125), causalExtremeIndex := some 2, midpointLevel := some ((2199 : Rat)/2000), impulsePips := some 90, pullbackStartIndex := some 6, pullbackConfirmIndex := some 7, pbLow := some ((2191 : Rat)/2000), pbHigh := none, sLow := some ((2191 : Rat)/2000), sHigh := none, activeTradeKey := none }

def cexResume1 : EngineState :=
  { state := FxNola.MState.WAIT_SWING_BOS, signals := [], trades := [], events := [], confirmedFractals := [], lastFSH := some { type := FxNola.FractalType.FSH, index := 0, price := (549 : Rat)/500, confirmedAtIndex := 0 }, lastFSL := some { type := FxNola.FractalType.FSL, index := 0, price := (547 : Rat)/500, confirmedAtIndex := 0 }, tradeRuntime := none, tBos := -1, anchorLine := 0, anchorIndex := -1, causalExtreme := 0, causalExtremeIndex := -1, pbLevel := 0, impulsePips := 0, pullbackStartIndex := -1, pullbackConfirmIndex := -1, pbLow := none, pbHigh := none, sLow := none, sHigh := none }

def cexResume2 : EngineState :=
  { state := FxNola.MState.BEAR_WAIT_PULLBACK_START, signals := [], trades := [], events := [], confirmedFractals := [], lastFSH := some { type := FxNola.FractalType.FSH, index := 0, price := (549 : Rat)/500, confirmedAtIndex := 0 }, lastFSL := some { type := FxNola.FractalType.FSL, index := 0, price := (547 : Rat)/500, confirmedAtIndex := 0 }, tradeRuntime := none, tBos := 1, anchorLine := (547 : Rat)/500, anchorIndex := 0, causalExtreme := (2201 : Rat)/2000, causalExtremeIndex := 0, pbLevel := (4389 : Rat)/4000, impulsePips := 65, pullbackStartIndex := -1, pullbackConfirmIndex := -1, pbLow := none, pbHigh := none, sLow := none, sHigh := none }


set_option maxHeartbeats 1600000 in
lemma cexStep0 : stepAt "EUR/USD" "15min" cexCandles 0 initialEngineState = cexState1 := by
  norm_num [stepAt, applyFractalConfirmation, confirmFractalAt, stepSwitch,
    handleWaitSwingBos, handleWaitSwingBosBull, handleBearWaitPullbackStart,
    handleBearTrackPullback, handleBearTrigger, handleBullWaitPullbackStart,
    handleBullTrackPullback, handleBullTrigger, startBearCycleFromBosDown,
    startBullCycleFromBosUp, scanMaxHigh, scanMinLow, resetCycle, simulateStep,
    simulateOpenTradeAtCandle, updateLastTrade, emitShortSignalAndTrade,
    emitLongSignalAndTrade, mkShortSignal, mkLongSignal, lastConfirmedOfType,
    List.range', roundPx, roundPips, roundToFixed, PIP, SL_BUFFER, D_MIN,
    STRATEGY_CODE, buildSignalKey, buildTradeKey, min_def, max_def, Int.reduceToNat,
    cexSize, pfxSize, sfxSize, cexGet0, cexGet1, cexGet2, cexGet3, cexGet4, cexGet5,
    cexGet6, cexGet7, cexGet8, cexGet9, pfxGet0, pfxGet1, pfxGet2, pfxGet3, pfxGet4,
    pfxGet5, pfxGet6, pfxGet7, sfxGet0, sfxGet1, initialEngineState, initialEngineState, cexState1]

set_option maxHeartbeats 1600000 in
lemma cexStep1 : stepAt "EUR/USD" "15min" cexCandles 1 cexState1 = cexState2 := by
  norm_num [stepAt, applyFractalConfirmation, confirmFractalAt, stepSwitch,
    handleWaitSwingBos, handleWaitSwingBosBull, handleBearWaitPullbackStart,
    handleBearTrackPullback, handleBearTrigger, handleBullWaitPullbackStart,
    handleBullTrackPullback, handleBullTrigger, startBearCycleFromBosDown,
    startBullCycleFromBosUp, scanMaxHigh, scanMinLow, resetCycle, simulateStep,
    simulateOpenTradeAtCandle, updateLastTrade, emitShortSignalAndTrade,
    emitLongSignalAndTrade, mkShortSignal, mkLongSignal, lastConfirmedOfType,
    List.range', roundPx, roundPips, roundToFixed, PIP, SL_BUFFER, D_MIN,
    STRATEGY_CODE, buildSignalKey, buildTradeKey, min_def, max_def, Int.reduceToNat,
    cexSize, pfxSize, sfxSize, cexGet0, cexGet1, cexGet2, cexGet3, cexGet4, cexGet5,
    cexGet6, cexGet7, cexGet8, cexGet9, pfxGet0, pfxGet1, pfxGet2, pfxGet3, pfxGet4,
    pfxGet5, pfxGet6, pfxGet7, sfxGet0, sfxGet1, initialEngineState, cexState1, cexState2]

set_option maxHeartbeats 1600000 in
lemma cexStep2 : stepAt "EUR/USD" "15min" cexCandles 2 cexState2 = cexState3 := by
  norm_num [stepAt, applyFractalConfirmation, confirmFractalAt, stepSwitch,
    handleWaitSwingBos, handleWaitSwingBosBull, handleBearWaitPullbackStart,
    handleBearTrackPullback, handleBearTrigger, handleBullWaitPullbackStart,
    handleBullTrackPullback, handleBullTrigger, startBearCycleFromBosDown,
    startBullCycleFromBosUp, scanMaxHigh, scanMinLow, resetCycle, simulateStep,
    simulateOpenTradeAtCandle, updateLastTrade, emitShortSignalAndTrade,
    emitLongSignalAndTrade, mkShortSignal, mkLongSignal, lastConfirmedOfType,
    List.range', roundPx, roundPips, roundToFixed, PIP, SL_BUFFER, D_MIN,
    STRATEGY_CODE, buildSignalKey, buildTradeKey, min_def, max_def, Int.reduceToNat,
    cexSize, pfxSize, sfxSize, cexGet0, cexGet1, cexGet2, cexGet3, cexGet4, cexGet5,
    cexGet6, cexGet7, cexGet8, cexGet9, pfxGet0, pfxGet1, pfxGet2, pfxGet3, pfxGet4,
    pfxGet5, pfxGet6, pfxGet7, sfxGet0, sfxGet1, initialEngineState, cexState2, cexState3]

set_option maxHeartbeats 1600000 in
lemma cexStep3 : stepAt "EUR/USD" "15min" cexCandles 3 cexState3 = cexState4 := by
  norm_num [stepAt, applyFractalConfirmation, confirmFractalAt, stepSwitch,
    handleWaitSwingBos, handleWaitSwingBosBull, handleBearWaitPullbackStart,
    handleBearTrackPullback, handleBearTrigger, handleBullWaitPullbackStart,
    handleBullTrackPullback, handleBullTrigger, startBearCycleFromBosDown,
    startBullCycleFromBosUp, scanMaxHigh, scanMinLow, resetCycle, simulateStep,
    simulateOpenTradeAtCandle, updateLastTrade, emitShortSignalAndTrade,
    emitLongSignalAndTrade, mkShortSignal, mkLongSignal, lastConfirmedOfType,
    List.range', roundPx, roundPips, roundToFixed, PIP, SL_BUFFER, D_MIN,
    STRATEGY_CODE, buildSignalKey, buildTradeKey, min_def, max_def, Int.reduceToNat,
    cexSize, pfxSize, sfxSize, cexGet0, cexGet1, cexGet2, cexGet3, cexGet4, cexGet5,
    cexGet6, cexGet7, cexGet8, cexGet9, pfxGet0, pfxGet1, pfxGet2, pfxGet3, pfxGet4,
    pfxGet5, pfxGet6, pfxGet7, sfxGet0, sfxGet1, initialEngineState, cexState3, cexState4]

set_option maxHeartbeats 1600000 in
lemma cexStep4 : stepAt "EUR/USD" "15min" cexCandles 4 cexState4 = cexState5 := by
  norm_num [stepAt, applyFractalConfirmation, confirmFractalAt, stepSwitch,
    handleWaitSwingBos, handleWaitSwingBosBull, handleBearWaitPullbackStart,
    handleBearTrackPullback, handleBearTrigger, handleBullWaitPullbackStart,
    handleBullTrackPullback, handleBullTrigger, startBearCycleFromBosDown,
    startBullCycleFromBosUp, scanMaxHigh, scanMinLow, resetCycle, simulateStep,
    simulateOpenTradeAtCandle, updateLastTrade, emitShortSignalAndTrade,
    emitLongSignalAndTrade, mkShortSignal, mkLongSignal, lastConfirmedOfType,
    List.range', roundPx, roundPips, roundToFixed, PIP, SL_BUFFER, D_MIN,
    STRATEGY_CODE, buildSignalKey, buildTradeKey, min_def, max_def, Int.reduceToNat,
    cexSize, pfxSize, sfxSize, cexGet0, cexGet1, cexGet2, cexGet3, cexGet4, cexGet5,
    cexGet6, cexGet7, cexGet8, cexGet9, pfxGet0, pfxGet1, pfxGet2, pfxGet3, pfxGet4,
    pfxGet5, pfxGet6, pfxGet7, sfxGet0, sfxGet1, initialEngineState, cexState4, cexState5]

set_option maxHeartbeats 1600000 in
lemma cexStep5 : stepAt "EUR/USD" "15min" cexCandles 5 cexState5 = cexState6 := by
  norm_num [stepAt, applyFractalConfirmation, confirmFractalAt, stepSwitch,
    handleWaitSwingBos, handleWaitSwingBosBull, handleBearWaitPullbackStart,
    handleBearTrackPullback, handleBearTrigger, handleBullWaitPullbackStart,
    handleBullTrackPullback, handleBullTrigger, startBearCycleFromBosDown,
    startBullCycleFromBosUp, scanMaxHigh, scanMinLow, resetCycle, simulateStep,
    simulateOpenTradeAtCandle, updateLastTrade, emitShortSignalAndTrade,
    emitLongSignalAndTrade, mkShortSignal, mkLongSignal, lastConfirmedOfType,
    List.range', roundPx, roundPips, roundToFixed, PIP, SL_BUFFER, D_MIN,
    STRATEGY_CODE, buildSignalKey, buildTradeKey, min_def, max_def, Int.reduceToNat,
    cexSize, pfxSize, sfxSize, cexGet0, cexGet1, cexGet2, cexGet3, cexGet4, cexGet5,
    cexGet6, cexGet7, cexGet8, cexGet9, pfxGet0, pfxGet1, pfxGet2, pfxGet3, pfxGet4,
    pfxGet5, pfxGet6, pfxGet7, sfxGet0, sfxGet1, initialEngineState, cexState5, cexState6]

set_option maxHeartbeats 1600000 in
lemma cexStep6 : stepAt "EUR/USD" "15min" cexCandles 6 cexState6 = cexState7 := by
  norm_num [stepAt, applyFractalConfirmation, confirmFractalAt, stepSwitch,
    handleWaitSwingBos, handleWaitSwingBosBull, handleBearWaitPullbackStart,
    handleBearTrackPullback, handleBearTrigger, handleBullWaitPullbackStart,
    handleBullTrackPullback, handleBullTrigger, startBearCycleFromBosDown,
    startBullCycleFromBosUp, scanMaxHigh, scanMinLow, resetCycle, simulateStep,
    simulateOpenTradeAtCandle, updateLastTrade, emitShortSignalAndTrade,
    emitLongSignalAndTrade, mkShortSignal, mkLongSignal, lastConfirmedOfType,
    List.range', roundPx, roundPips, roundToFixed, PIP, SL_BUFFER, D_MIN,
    STRATEGY_CODE, buildSignalKey, buildTradeKey, min_def, max_def, Int.reduceToNat,
    cexSize, pfxSize, sfxSize, cexGet0, cexGet1, cexGet2, cexGet3, cexGet4, cexGet5,
    cexGet6, cexGet7, cexGet8, cexGet9, pfxGet0, pfxGet1, pfxGet2, pfxGet3, pfxGet4,
    pfxGet5, pfxGet6, pfxGet7, sfxGet0, sfxGet1, initialEngineState, cexState6, cexState7]

set_option maxHeartbeats 1600000 in
lemma cexStep7 : stepAt "EUR/USD" "15min" cexCandles 7 cexState7 = cexState8 := by
  norm_num [stepAt, applyFractalConfirmation, confirmFractalAt, stepSwitch,
    handleWaitSwingBos, handleWaitSwingBosBull, handleBearWaitPullbackStart,
    handleBearTrackPullback, handleBearTrigger, handleBullWaitPullbackStart,
    handleBullTrackPullback, handleBullTrigger, startBearCycleFromBosDown,
    startBullCycleFromBosUp, scanMaxHigh, scanMinLow, resetCycle, simulateStep,
    simulateOpenTradeAtCandle, updateLastTrade, emitShortSignalAndTrade,
    emitLongSignalAndTrade, mkShortSignal, mkLongSignal, lastConfirmedOfType,
    List.range', roundPx, roundPips, roundToFixed, PIP, SL_BUFFER, D_MIN,
    STRATEGY_CODE, buildSignalKey, buildTradeKey, min_def, max_def, Int.reduceToNat,
    cexSize, pfxSize, sfxSize, cexGet0, cexGet1, cexGet2, cexGet3, cexGet4, cexGet5,
    cexGet6, cexGet7, cexGet8, cexGet9, pfxGet0, pfxGet1, pfxGet2, pfxGet3, pfxGet4,
    pfxGet5, pfxGet6, pfxGet7, sfxGet0, sfxGet1, initialEngineState, cexState7, cexState8]

set_option maxHeartbeats 1600000 in
lemma cexStep8 : stepAt "EUR/USD" "15min" cexCandles 8 cexState8 = cexState9 := by
  norm_num [stepAt, applyFractalConfirmation, confirmFractalAt, stepSwitch,
    handleWaitSwingBos, handleWaitSwingBosBull, handleBearWaitPullbackStart,
    handleBearTrackPullback, handleBearTrigger, handleBullWaitPullbackStart,
    handleBullTrackPullback, handleBullTrigger, startBearCycleFromBosDown,
    startBullCycleFromBosUp, scanMaxHigh, scanMinLow, resetCycle, simulateStep,
    simulateOpenTradeAtCandle, updateLastTrade, emitShortSignalAndTrade,
    emitLongSignalAndTrade, mkShortSignal, mkLongSignal, lastConfirmedOfType,
    List.range', roundPx, roundPips, roundToFixed, PIP, SL_BUFFER, D_MIN,
    STRATEGY_CODE, buildSignalKey, buildTradeKey, min_def, max_def, Int.reduceToNat,
    cexSize, pfxSize, sfxSize, cexGet0, cexGet1, cexGet2, cexGet3, cexGet4, cexGet5,
    cexGet6, cexGet7, cexGet8, cexGet9, pfxGet0, pfxGet1, pfxGet2, pfxGet3, pfxGet4,
    pfxGet5, pfxGet6, pfxGet7, sfxGet0, sfxGet1, initialEngineState, cexState8, cexState9]
  all_goals decide

set_option maxHeartbeats 1600000 in
lemma cexStep9 : stepAt "EUR/USD" "15min" cexCandles 9 cexState9 = cexState10 := by
  norm_num [stepAt, applyFractalConfirmation, confirmFractalAt, stepSwitch,
    handleWaitSwingBos, handleWaitSwingBosBull, handleBearWaitPullbackStart,
    handleBearTrackPullback, handleBearTrigger, handleBullWaitPullbackStart,
    handleBullTrackPullback, handleBullTrigger, startBearCycleFromBosDown,
    startBullCycleFromBosUp, scanMaxHigh, scanMinLow, resetCycle, simulateStep,
    simulateOpenTradeAtCandle, updateLastTrade, emitShortSignalAndTrade,
    emitLongSignalAndTrade, mkShortSignal, mkLongSignal, lastConfirmedOfType,
    List.range', roundPx, roundPips, roundToFixed, PIP, SL_BUFFER, D_MIN,
    STRATEGY_CODE, buildSignalKey, buildTradeKey, min_def, max_def, Int.reduceToNat,
    cexSize, pfxSize, sfxSize, cexGet0, cexGet1, cexGet2, cexGet3, cexGet4, cexGet5,
    cexGet6, cexGet7, cexGet8, cexGet9, pfxGet0, pfxGet1, pfxGet2, pfxGet3, pfxGet4,
    pfxGet5, pfxGet6, pfxGet7, sfxGet0, sfxGet1, initialEngineState, cexState9, cexState10]

set_option maxHeartbeats 1600000 in
lemma pfxStep0 : stepAt "EUR/USD" "15min" cexPrefix 0 initialEngineState = cexState1 := by
  norm_num [stepAt, applyFractalConfirmation, confirmFractalAt, stepSwitch,
    handleWaitSwingBos, handleWaitSwingBosBull, handleBearWaitPullbackStart,
    handleBearTrackPullback, handleBearTrigger, handleBullWaitPullbackStart,
    handleBullTrackPullback, handleBullTrigger, startBearCycleFromBosDown,
    startBullCycleFromBosUp, scanMaxHigh, scanMinLow, resetCycle, simulateStep,
    simulateOpenTradeAtCandle, updateLastTrade, emitShortSignalAndTrade,
    emitLongSignalAndTrade, mkShortSignal, mkLongSignal, lastConfirmedOfType,
    List.range', roundPx, roundPips, roundToFixed, PIP, SL_BUFFER, D_MIN,
    STRATEGY_CODE, buildSignalKey, buildTradeKey, min_def, max_def, Int.reduceToNat,
    cexSize, pfxSize, sfxSize, cexGet0, cexGet1, cexGet2, cexGet3, cexGet4, cexGet5,
    cexGet6, cexGet7, cexGet8, cexGet9, pfxGet0, pfxGet1, pfxGet2, pfxGet3, pfxGet4,
    pfxGet5, pfxGet6, pfxGet7, sfxGet0, sfxGet1, initialEngineState, initialEngineState, cexState1]

set_option maxHeartbeats 1600000 in
lemma pfxStep1 : stepAt "EUR/USD" "15min" cexPrefix 1 cexState1 = cexState2 := by
  norm_num [stepAt, applyFractalConfirmation, confirmFractalAt, stepSwitch,
    handleWaitSwingBos, handleWaitSwingBosBull, handleBearWaitPullbackStart,
    handleBearTrackPullback, handleBearTrigger, handleBullWaitPullbackStart,
    handleBullTrackPullback, handleBullTrigger, startBearCycleFromBosDown,
    startBullCycleFromBosUp, scanMaxHigh, scanMinLow, resetCycle, simulateStep,
    simulateOpenTradeAtCandle, updateLastTrade, emitShortSignalAndTrade,
    emitLongSignalAndTrade, mkShortSignal, mkLongSignal, lastConfirmedOfType,
    List.range', roundPx, roundPips, roundToFixed, PIP, SL_BUFFER, D_MIN,
    STRATEGY_CODE, buildSignalKey, buildTradeKey, min_def, max_def, Int.reduceToNat,
    cexSize, pfxSize, sfxSize, cexGet0, cexGet1, cexGet2, cexGet3, cexGet4, cexGet5,
    cexGet6, cexGet7, cexGet8, cexGet9, pfxGet0, pfxGet1, pfxGet2, pfxGet3, pfxGet4,
    pfxGet5, pfxGet6, pfxGet7, sfxGet0, sfxGet1, initialEngineState, cexState1, cexState2]

set_option maxHeartbeats 1600000 in
lemma pfxStep2 : stepAt "EUR/USD" "15min" cexPrefix 2 cexState2 = cexState3 := by
  norm_num [stepAt, applyFractalConfirmation, confirmFractalAt, stepSwitch,
    handleWaitSwingBos, handleWaitSwingBosBull, handleBearWaitPullbackStart,
    handleBearTrackPullback, handleBearTrigger, handleBullWaitPullbackStart,
    handleBullTrackPullback, handleBullTrigger, startBearCycleFromBosDown,
    startBullCycleFromBosUp, scanMaxHigh, scanMinLow, resetCycle, simulateStep,
    simulateOpenTradeAtCandle, updateLastTrade, emitShortSignalAndTrade,
    emitLongSignalAndTrade, mkShortSignal, mkLongSignal, lastConfirmedOfType,
    List.range', roundPx, roundPips, roundToFixed, PIP, SL_BUFFER, D_MIN,
    STRATEGY_CODE, buildSignalKey, buildTradeKey, min_def, max_def, Int.reduceToNat,
    cexSize, pfxSize, sfxSize, cexGet0, cexGet1, cexGet2, cexGet3, cexGet4, cexGet5,
    cexGet6, cexGet7, cexGet8, cexGet9, pfxGet0, pfxGet1, pfxGet2, pfxGet3, pfxGet4,
    pfxGet5, pfxGet6, pfxGet7, sfxGet0, sfxGet1, initialEngineState, cexState2, cexState3]

set_option maxHeartbeats 1600000 in
lemma pfxStep3 : stepAt "EUR/USD" "15min" cexPrefix 3 cexState3 = cexState4 := by
  norm_num [stepAt, applyFractalConfirmation, confirmFractalAt, stepSwitch,
    handleWaitSwingBos, handleWaitSwingBosBull, handleBearWaitPullbackStart,
    handleBearTrackPullback, handleBearTrigger, handleBullWaitPullbackStart,
    handleBullTrackPullback, handleBullTrigger, startBearCycleFromBosDown,
    startBullCycleFromBosUp, scanMaxHigh, scanMinLow, resetCycle, simulateStep,
    simulateOpenTradeAtCandle, updateLastTrade, emitShortSignalAndTrade,
    emitLongSignalAndTrade, mkShortSignal, mkLongSignal, lastConfirmedOfType,
    List.range', roundPx, roundPips, roundToFixed, PIP, SL_BUFFER, D_MIN,
    STRATEGY_CODE, buildSignalKey, buildTradeKey, min_def, max_def, Int.reduceToNat,
    cexSize, pfxSize, sfxSize, cexGet0, cexGet1, cexGet2, cexGet3, cexGet4, cexGet5,
    cexGet6, cexGet7, cexGet8, cexGet9, pfxGet0, pfxGet1, pfxGet2, pfxGet3, pfxGet4,
    pfxGet5, pfxGet6, pfxGet7, sfxGet0, sfxGet1, initialEngineState, cexState3, cexState4]

set_option maxHeartbeats 1600000 in
lemma pfxStep4 : stepAt "EUR/USD" "15min" cexPrefix 4 cexState4 = cexState5 := by
  norm_num [stepAt, applyFractalConfirmation, confirmFractalAt, stepSwitch,
    handleWaitSwingBos, handleWaitSwingBosBull, handleBearWaitPullbackStart,
    handleBearTrackPullback, handleBearTrigger, handleBullWaitPullbackStart,
    handleBullTrackPullback, handleBullTrigger, startBearCycleFromBosDown,
    startBullCycleFromBosUp, scanMaxHigh, scanMinLow, resetCycle, simulateStep,
    simulateOpenTradeAtCandle, updateLastTrade, emitShortSignalAndTrade,
    emitLongSignalAndTrade, mkShortSignal, mkLongSignal, lastConfirmedOfType,
    List.range', roundPx, roundPips, roundToFixed, PIP, SL_BUFFER, D_MIN,
    STRATEGY_CODE, buildSignalKey, buildTradeKey, min_def, max_def, Int.reduceToNat,
    cexSize, pfxSize, sfxSize, cexGet0, cexGet1, cexGet2, cexGet3, cexGet4, cexGet5,
    cexGet6, cexGet7, cexGet8, cexGet9, pfxGet0, pfxGet1, pfxGet2, pfxGet3, pfxGet4,
    pfxGet5, pfxGet6, pfxGet7, sfxGet0, sfxGet1, initialEngineState, cexState4, cexState5]

set_option maxHeartbeats 1600000 in
lemma pfxStep5 : stepAt "EUR/USD" "15min" cexPrefix 5 cexState5 = cexState6 := by
  norm_num [stepAt, applyFractalConfirmation, confirmFractalAt, stepSwitch,
    handleWaitSwingBos, handleWaitSwingBosBull, handleBearWaitPullbackStart,
    handleBearTrackPullback, handleBearTrigger, handleBullWaitPullbackStart,
    handleBullTrackPullback, handleBullTrigger, startBearCycleFromBosDown,
    startBullCycleFromBosUp, scanMaxHigh, scanMinLow, resetCycle, simulateStep,
    simulateOpenTradeAtCandle, updateLastTrade, emitShortSignalAndTrade,
    emitLongSignalAndTrade, mkShortSignal, mkLongSignal, lastConfirmedOfType,
    List.range', roundPx, roundPips, roundToFixed, PIP, SL_BUFFER, D_MIN,
    STRATEGY_CODE, buildSignalKey, buildTradeKey, min_def, max_def, Int.reduceToNat,
    cexSize, pfxSize, sfxSize, cexGet0, cexGet1, cexGet2, cexGet3, cexGet4, cexGet5,
    cexGet6, cexGet7, cexGet8, cexGet9, pfxGet0, pfxGet1, pfxGet2, pfxGet3, pfxGet4,
    pfxGet5, pfxGet6, pfxGet7, sfxGet0, sfxGet1, initialEngineState, cexState5, cexState6]

set_option maxHeartbeats 1600000 in
lemma pfxStep6 : stepAt "EUR/USD" "15min" cexPrefix 6 cexState6 = cexState7 := by
  norm_num [stepAt, applyFractalConfirmation, confirmFractalAt, stepSwitch,
    handleWaitSwingBos, handleWaitSwingBosBull, handleBearWaitPullbackStart,
    handleBearTrackPullback, handleBearTrigger, handleBullWaitPullbackStart,
    handleBullTrackPullback, handleBullTrigger, startBearCycleFromBosDown,
    startBullCycleFromBosUp, scanMaxHigh, scanMinLow, resetCycle, simulateStep,
    simulateOpenTradeAtCandle, updateLastTrade, emitShortSignalAndTrade,
    emitLongSignalAndTrade, mkShortSignal, mkLongSignal, lastConfirmedOfType,
    List.range', roundPx, roundPips, roundToFixed, PIP, SL_BUFFER, D_MIN,
    STRATEGY_CODE, buildSignalKey, buildTradeKey, min_def, max_def, Int.reduceToNat,
    cexSize, pfxSize, sfxSize, cexGet0, cexGet1, cexGet2, cexGet3, cexGet4, cexGet5,
    cexGet6, cexGet7, cexGet8, cexGet9, pfxGet0, pfxGet1, pfxGet2, pfxGet3, pfxGet4,
    pfxGet5, pfxGet6, pfxGet7, sfxGet0, sfxGet1, initialEngineState, cexState6, cexState7]

set_option maxHeartbeats 1600000 in
lemma pfxStep7 : stepAt "EUR/USD" "15min" cexPrefix 7 cexState7 = cexState8 := by
  norm_num [stepAt, applyFractalConfirmation, confirmFractalAt, stepSwitch,
    handleWaitSwingBos, handleWaitSwingBosBull, handleBearWaitPullbackStart,
    handleBearTrackPullback, handleBearTrigger, handleBullWaitPullbackStart,
    handleBullTrackPullback, handleBullTrigger, startBearCycleFromBosDown,
    startBullCycleFromBosUp, scanMaxHigh, scanMinLow, resetCycle, simulateStep,
    simulateOpenTradeAtCandle, updateLastTrade, emitShortSignalAndTrade,
    emitLongSignalAndTrade, mkShortSignal, mkLongSignal, lastConfirmedOfType,
    List.range', roundPx, roundPips, roundToFixed, PIP, SL_BUFFER, D_MIN,
    STRATEGY_CODE, buildSignalKey, buildTradeKey, min_def, max_def, Int.reduceToNat,
    cexSize, pfxSize, sfxSize, cexGet0, cexGet1, cexGet2, cexGet3, cexGet4, cexGet5,
    cexGet6, cexGet7, cexGet8, cexGet9, pfxGet0, pfxGet1, pfxGet2, pfxGet3, pfxGet4,
    pfxGet5, pfxGet6, pfxGet7, sfxGet0, sfxGet1, initialEngineState, cexState7, cexState8]

set_option maxHeartbeats 1600000 in
lemma cexSnapLemma : buildRuntimeSnapshot "EUR/USD" "15min" cexPrefix cexState8 = cexSnap8 := by
  norm_num [buildRuntimeSnapshot, computeBias, cexState8, cexSnap8, pfxSize, pfxGet7,
    roundPx, roundToFixed, STRATEGY_CODE]
  all_goals decide

set_option maxHeartbeats 1600000 in
lemma cexResumeStep0 : stepAt "EUR/USD" "15min" cexSuffix 0 (resumeEngineStateFromSnapshot cexSnap8) = cexResume1 := by
  norm_num [stepAt, applyFractalConfirmation, confirmFractalAt, stepSwitch,
    handleWaitSwingBos, handleWaitSwingBosBull, handleBearWaitPullbackStart,
    handleBearTrackPullback, handleBearTrigger, handleBullWaitPullbackStart,
    handleBullTrackPullback, handleBullTrigger, startBearCycleFromBosDown,
    startBullCycleFromBosUp, scanMaxHigh, scanMinLow, resetCycle, simulateStep,
    simulateOpenTradeAtCandle, updateLastTrade, emitShortSignalAndTrade,
    emitLongSignalAndTrade, mkShortSignal, mkLongSignal, lastConfirmedOfType,
    List.range', roundPx, roundPips, roundToFixed, PIP, SL_BUFFER, D_MIN,
    STRATEGY_CODE, buildSignalKey, buildTradeKey, min_def, max_def, Int.reduceToNat,
    cexSize, pfxSize, sfxSize, cexGet0, cexGet1, cexGet2, cexGet3, cexGet4, cexGet5,
    cexGet6, cexGet7, cexGet8, cexGet9, pfxGet0, pfxGet1, pfxGet2, pfxGet3, pfxGet4,
    pfxGet5, pfxGet6, pfxGet7, sfxGet0, sfxGet1, initialEngineState, resumeEngineStateFromSnapshot, cexSnap8, cexResume1]

set_option maxHeartbeats 1600000 in
lemma cexResumeStep1 : stepAt "EUR/USD" "15min" cexSuffix 1 cexResume1 = cexResume2 := by
  norm_num [stepAt, applyFractalConfirmation, confirmFractalAt, stepSwitch,
    handleWaitSwingBos, handleWaitSwingBosBull, handleBearWaitPullbackStart,
    handleBearTrackPullback, handleBearTrigger, handleBullWaitPullbackStart,
    handleBullTrackPullback, handleBullTrigger, startBearCycleFromBosDown,
    startBullCycleFromBosUp, scanMaxHigh, scanMinLow, resetCycle, simulateStep,
    simulateOpenTradeAtCandle, updateLastTrade, emitShortSignalAndTrade,
    emitLongSignalAndTrade, mkShortSignal, mkLongSignal, lastConfirmedOfType,
    List.range', roundPx, roundPips, roundToFixed, PIP, SL_BUFFER, D_MIN,
    STRATEGY_CODE, buildSignalKey, buildTradeKey, min_def, max_def, Int.reduceToNat,
    cexSize, pfxSize, sfxSize, cexGet0, cexGet1, cexGet2, cexGet3, cexGet4, cexGet5,
    cexGet6, cexGet7, cexGet8, cexGet9, pfxGet0, pfxGet1, pfxGet2, pfxGet3, pfxGet4,
    pfxGet5, pfxGet6, pfxGet7, sfxGet0, sfxGet1, initialEngineState, cexResume1, cexResume2]

end FxNola
namespace FxNola

lemma runStepsFuel_succ (symbol timeframe : String) (candles : Array Candle)
    (n t : Nat) (st : EngineState) :
    runStepsFuel symbol timeframe candles (n + 1) t st =
      runStepsFuel symbol timeframe candles n (t + 1) (stepAt symbol timeframe candles t st) := rfl

lemma runStepsFuel_zero (symbol timeframe : String) (candles : Array Candle)
    (t : Nat) (st : EngineState) :
    runStepsFuel symbol timeframe candles 0 t st = st := rfl

lemma cexChain : runSteps "EUR/USD" "15min" cexCandles 0 10 initialEngineState = cexState10 := by
  simp only [runSteps, Nat.sub_zero, Nat.reduceAdd, runStepsFuel_succ, runStepsFuel_zero,
    cexStep0, cexStep1, cexStep2, cexStep3, cexStep4, cexStep5, cexStep6, cexStep7,
    cexStep8, cexStep9]

lemma pfxChain : runSteps "EUR/USD" "15min" cexPrefix 0 8 initialEngineState = cexState8 := by
  simp only [runSteps, Nat.sub_zero, Nat.reduceAdd, runStepsFuel_succ, runStepsFuel_zero,
    pfxStep0, pfxStep1, pfxStep2, pfxStep3, pfxStep4, pfxStep5, pfxStep6, pfxStep7]

lemma resumeChain :
    runSteps "EUR/USD" "15min" cexSuffix 0 2 (resumeEngineStateFromSnapshot cexSnap8) = cexResume2 := by
  simp only [runSteps, Nat.sub_zero, Nat.reduceAdd, runStepsFuel_succ, runStepsFuel_zero,
    cexResumeStep0, cexResumeStep1]

end FxNola

namespace FxNola

lemma runStepsFuel_add (symbol timeframe : String) (candles : Array Candle) :
    ∀ (a : Nat) (b t : Nat) (st : EngineState),
      runStepsFuel symbol timeframe candles (a + b) t st =
        runStepsFuel symbol timeframe candles b (t + a)
          (runStepsFuel symbol timeframe candles a t st) := by
  intro a
  induction a with
  | zero => intro b t st; simp [runStepsFuel_zero]
  | succ n ih =>
    intro b t st
    have h1 : n + 1 + b = (n + b) + 1 := by omega
    rw [h1, runStepsFuel_succ, runStepsFuel_succ, ih]
    have h2 : t + 1 + n = t + (n + 1) := by omega
    rw [h2]

lemma cexSnap8_symbol : cexSnap8.symbol = "EUR/USD" := rfl

lemma cexSnap8_timeframe : cexSnap8.timeframe = "15min" := rfl

lemma cexFullSignals :
    (runContinuationStrategy "EUR/USD" "15min" cexCandles).signals = cexState10.signals := by
  simp only [runContinuationStrategy, cexSize, cexChain]

lemma cexFullTrades :
    (runContinuationStrategy "EUR/USD" "15min" cexCandles).trades = cexState10.trades := by
  simp only [runContinuationStrategy, cexSize, cexChain]

lemma pfxRuntime :
    (runContinuationStrategy "EUR/USD" "15min" cexPrefix).runtime = cexSnap8 := by
  simp only [runContinuationStrategy, pfxSize, pfxChain, cexSnapLemma]

lemma pfxSignals :
    (runContinuationStrategy "EUR/USD" "15min" cexPrefix).signals = cexState8.signals := by
  simp only [runContinuationStrategy, pfxSize, pfxChain]

lemma pfxTrades :
    (runContinuationStrategy "EUR/USD" "15min" cexPrefix).trades = cexState8.trades := by
  simp only [runContinuationStrategy, pfxSize, pfxChain]

lemma resumedSignals :
    (resumeContinuationStrategy cexSnap8 cexSuffix).signals = cexResume2.signals := by
  simp only [resumeContinuationStrategy, cexSnap8_symbol, cexSnap8_timeframe, sfxSize, resumeChain]

lemma resumedTrades :
    (resumeContinuationStrategy cexSnap8 cexSuffix).trades = cexResume2.trades := by
  simp only [resumeContinuationStrategy, cexSnap8_symbol, cexSnap8_timeframe, sfxSize, resumeChain]

/-- C1 (counterexample): replaying the engine from the persisted
`RuntimeSnapshot` of an 8-candle prefix of `cexCandles` over the remaining
2 candles does not reproduce the signals/trades of the full 10-candle run:
the full run emits one SHORT signal and one closed trade at candle T8/T9,
while the resumed run emits none, because the persisted snapshot carries
neither the confirmed-fractal history (needed for the cause-fractal lookup)
nor the BOS candle index nor the open-trade runtime. -/
theorem claim_C1_counterexample :
    cexCandles = cexPrefix ++ cexSuffix ∧
    ¬((runContinuationStrategy "EUR/USD" "15min" cexCandles).signals =
        (runContinuationStrategy "EUR/USD" "15min" cexPrefix).signals ++
          (resumeContinuationStrategy
              (runContinuationStrategy "EUR/USD" "15min" cexPrefix).runtime cexSuffix).signals ∧
      (runContinuationStrategy "EUR/USD" "15min" cexCandles).trades =
        (runContinuationStrategy "EUR/USD" "15min" cexPrefix).trades ++
          (resumeContinuationStrategy
              (runContinuationStrategy "EUR/USD" "15min" cexPrefix).runtime cexSuffix).trades) := by
  refine ⟨rfl, ?_⟩
  rintro ⟨hs, -⟩
  rw [pfxRuntime, cexFullSignals, pfxSignals, resumedSignals] at hs
  simp only [cexState10, cexState8, cexResume2] at hs
  simp at hs

/-- C1 (amended): resuming the Pattern Engine from its full internal state
after a prefix (rather than from the persisted `RuntimeSnapshot`, which
omits the confirmed-fractal history, the BOS index and the open-trade
runtime) and replaying the remaining candles of the same candle array
yields exactly the state - hence the signals and trades - of running
`runContinuationStrategy` over the full sequence from the start. -/
theorem claim_C1_resume_from_full_state (symbol timeframe : String) (candles : Array Candle)
    (p : Nat) (hp : p ≤ candles.size) :
    runSteps symbol timeframe candles p candles.size
        (runSteps symbol timeframe candles 0 p initialEngineState) =
      runSteps symbol timeframe candles 0 candles.size initialEngineState ∧
    (runContinuationStrategy symbol timeframe candles).signals =
      (runSteps symbol timeframe candles p candles.size
        (runSteps symbol timeframe candles 0 p initialEngineState)).signals ∧
    (runContinuationStrategy symbol timeframe candles).trades =
      (runSteps symbol timeframe candles p candles.size
        (runSteps symbol timeframe candles 0 p initialEngineState)).trades := by
  have key : runSteps symbol timeframe candles p candles.size
      (runSteps symbol timeframe candles 0 p initialEngineState) =
      runSteps symbol timeframe candles 0 candles.size initialEngineState := by
    unfold runSteps
    have h := runStepsFuel_add symbol timeframe candles p (candles.size - p) 0 initialEngineState
    rw [Nat.add_sub_cancel' hp] at h
    simpa using h.symm
  exact ⟨key, by rw [key]; rfl, by rw [key]; rfl⟩

theorem claim_C1_witness :
    runSteps "EUR/USD" "15min" cexCandles 8 cexCandles.size
        (runSteps "EUR/USD" "15min" cexCandles 0 8 initialEngineState) =
      runSteps "EUR/USD" "15min" cexCandles 0 cexCandles.size initialEngineState ∧
    (runContinuationStrategy "EUR/USD" "15min" cexCandles).signals =
      (runSteps "EUR/USD" "15min" cexCandles 8 cexCandles.size
        (runSteps "EUR/USD" "15min" cexCandles 0 8 initialEngineState)).signals ∧
    (runContinuationStrategy "EUR/USD" "15min" cexCandles).trades =
      (runSteps "EUR/USD" "15min" cexCandles 8 cexCandles.size
        (runSteps "EUR/USD" "15min" cexCandles 0 8 initialEngineState)).trades :=
  claim_C1_resume_from_full_state "EUR/USD" "15min" cexCandles 8 (by decide)

end FxNola

namespace FxNola

/-- Shape of the property every emitted signal must satisfy (claim C5). -/
def signalCauseOk (sig : EngineSignal) : Prop :=
  sig.causeFractalIndex < sig.triggerCandleIndex ∧
  (sig.direction = .SHORT → sig.causeFractalType = .FSH) ∧
  (sig.direction = .LONG → sig.causeFractalType = .FSL)

lemma lastConfirmedOfType_strict {l : List Fractal} {ty : FractalType} {t : Nat} {f : Fractal}
    (h : lastConfirmedOfType l ty t true = some f) :
    f.type = ty ∧ f.index < t ∧ f.confirmedAtIndex ≤ t := by
  unfold lastConfirmedOfType at h
  have hp := List.find?_some h
  simp only [Bool.and_eq_true, decide_eq_true_eq, Bool.or_eq_true, Bool.not_eq_true'] at hp
  exact ⟨hp.1.1, hp.2.resolve_left (by simp), hp.1.2⟩

lemma signals_startBearCycle (candles : Array Candle) (t : Nat) (bLine : Px) (bIndex : Nat)
    (st : EngineState) :
    (startBearCycleFromBosDown candles t bLine bIndex st).signals = st.signals := by
  unfold startBearCycleFromBosDown
  repeat' split
  all_goals simp [apply_ite, resetCycle]

lemma signals_startBullCycle (candles : Array Candle) (t : Nat) (aLine : Px) (aIndex : Nat)
    (st : EngineState) :
    (startBullCycleFromBosUp candles t aLine aIndex st).signals = st.signals := by
  unfold startBullCycleFromBosUp
  repeat' split
  all_goals simp [apply_ite, resetCycle]

lemma signals_applyFractalConfirmation (candles : Array Candle) (t : Nat) (st : EngineState) :
    (applyFractalConfirmation candles t st).signals = st.signals := by
  unfold applyFractalConfirmation
  repeat' split
  all_goals simp

lemma signals_handleWaitSwingBosBull (candles : Array Candle) (t : Nat) (st : EngineState) :
    (handleWaitSwingBosBull candles t st).signals = st.signals := by
  unfold handleWaitSwingBosBull
  repeat' split
  all_goals simp [apply_ite, signals_startBullCycle]

lemma signals_handleWaitSwingBos (candles : Array Candle) (t : Nat) (st : EngineState) :
    (handleWaitSwingBos candles t st).signals = st.signals := by
  unfold handleWaitSwingBos
  repeat' split
  all_goals simp [apply_ite, signals_startBearCycle, signals_handleWaitSwingBosBull]

lemma signals_handleBearWaitPullbackStart (candles : Array Candle) (t : Nat) (st : EngineState) :
    (handleBearWaitPullbackStart candles t st).signals = st.signals := by
  unfold handleBearWaitPullbackStart
  repeat' split
  all_goals simp [apply_ite]

lemma signals_handleBullWaitPullbackStart (candles : Array Candle) (t : Nat) (st : EngineState) :
    (handleBullWaitPullbackStart candles t st).signals = st.signals := by
  unfold handleBullWaitPullbackStart
  repeat' split
  all_goals simp [apply_ite]

lemma signals_handleBearTrackPullback (candles : Array Candle) (t : Nat) (st : EngineState) :
    (handleBearTrackPullback candles t st).signals = st.signals := by
  unfold handleBearTrackPullback
  repeat' split
  all_goals simp [apply_ite]

lemma signals_handleBullTrackPullback (candles : Array Candle) (t : Nat) (st : EngineState) :
    (handleBullTrackPullback candles t st).signals = st.signals := by
  unfold handleBullTrackPullback
  repeat' split
  all_goals simp [apply_ite]

lemma signals_simulateStep (candles : Array Candle) (t : Nat) (st : EngineState) :
    (simulateStep candles t st).signals = st.signals := by
  unfold simulateStep
  rcases hrt : st.tradeRuntime with - | rt
  · rfl
  · by_cases hti : t < rt.entryIndex
    · simp [hti]
    · simp only [if_neg hti]
      cases hstat : rt.trade.status
      · cases hs2 : (simulateOpenTradeAtCandle rt.trade (getC candles (t : Int))).status <;>
          simp [hs2, resetCycle]
      · rfl

end FxNola

namespace FxNola

lemma signals_emitShortSignalAndTrade (symbol timeframe : String) (candles : Array Candle)
    (t : Nat) (st : EngineState) (causeFSH : Fractal) (sLowV : Px) :
    (emitShortSignalAndTrade symbol timeframe candles t st causeFSH sLowV).signals =
      st.signals ++ [mkShortSignal symbol timeframe candles t st causeFSH sLowV] := by
  unfold emitShortSignalAndTrade
  split <;> simp [resetCycle]

lemma signals_emitLongSignalAndTrade (symbol timeframe : String) (candles : Array Candle)
    (t : Nat) (st : EngineState) (causeFSL : Fractal) (sHighV : Px) :
    (emitLongSignalAndTrade symbol timeframe candles t st causeFSL sHighV).signals =
      st.signals ++ [mkLongSignal symbol timeframe candles t st causeFSL sHighV] := by
  unfold emitLongSignalAndTrade
  split <;> simp [resetCycle]

lemma signals_handleBearTrigger (symbol timeframe : String) (candles : Array Candle)
    (t : Nat) (st : EngineState) :
    (handleBearTrigger symbol timeframe candles t st).signals = st.signals ∨
    ∃ causeFSH sLowV,
      lastConfirmedOfType st.confirmedFractals .FSH t true = some causeFSH ∧
      st.sLow = some sLowV ∧
      (handleBearTrigger symbol timeframe candles t st).signals =
        st.signals ++ [mkShortSignal symbol timeframe candles t st causeFSH sLowV] := by
  by_cases hflip : st.causalExtreme < (getC candles (t : Int)).close ∧ 0 ≤ st.causalExtremeIndex
  · left
    simp only [handleBearTrigger, if_pos hflip]
    rw [signals_startBullCycle]
  · simp only [handleBearTrigger, if_neg hflip]
    cases hfsl : st.lastFSL with
    | none => left; rfl
    | some fsl =>
      by_cases hbrk : fsl.price ≤ (getC candles (t : Int)).close
      · left; simp only [if_pos hbrk]
      · simp only [if_neg hbrk]
        cases hcause : lastConfirmedOfType st.confirmedFractals .FSH t true with
        | none => left; simp [resetCycle]
        | some causeFSH =>
          cases hslow : st.sLow with
          | none => left; simp [resetCycle]
          | some sLowV =>
            right
            exact ⟨causeFSH, sLowV, rfl, rfl, signals_emitShortSignalAndTrade ..⟩

lemma signals_handleBullTrigger (symbol timeframe : String) (candles : Array Candle)
    (t : Nat) (st : EngineState) :
    (handleBullTrigger symbol timeframe candles t st).signals = st.signals ∨
    ∃ causeFSL sHighV,
      lastConfirmedOfType st.confirmedFractals .FSL t true = some causeFSL ∧
      st.sHigh = some sHighV ∧
      (handleBullTrigger symbol timeframe candles t st).signals =
        st.signals ++ [mkLongSignal symbol timeframe candles t st causeFSL sHighV] := by
  by_cases hflip : (getC candles (t : Int)).close < st.causalExtreme ∧ 0 ≤ st.causalExtremeIndex
  · left
    simp only [handleBullTrigger, if_pos hflip]
    rw [signals_startBearCycle]
  · simp only [handleBullTrigger, if_neg hflip]
    cases hfsh : st.lastFSH with
    | none => left; rfl
    | some fsh =>
      by_cases hbrk : (getC candles (t : Int)).close ≤ fsh.price
      · left; simp only [if_pos hbrk]
      · simp only [if_neg hbrk]
        cases hcause : lastConfirmedOfType st.confirmedFractals .FSL t true with
        | none => left; simp [resetCycle]
        | some causeFSL =>
          cases hshigh : st.sHigh with
          | none => left; simp [resetCycle]
          | some sHighV =>
            right
            exact ⟨causeFSL, sHighV, rfl, rfl, signals_emitLongSignalAndTrade ..⟩

lemma mkShortSignal_causeOk (symbol timeframe : String) (candles : Array Candle)
    (t : Nat) (st : EngineState) (causeFSH : Fractal) (sLowV : Px)
    (hc : lastConfirmedOfType st.confirmedFractals .FSH t true = some causeFSH) :
    signalCauseOk (mkShortSignal symbol timeframe candles t st causeFSH sLowV) := by
  obtain ⟨hty, hidx, -⟩ := lastConfirmedOfType_strict hc
  refine ⟨?_, fun _ => rfl, fun hdir => ?_⟩
  · simpa [mkShortSignal] using hidx
  · simp [mkShortSignal] at hdir

lemma mkLongSignal_causeOk (symbol timeframe : String) (candles : Array Candle)
    (t : Nat) (st : EngineState) (causeFSL : Fractal) (sHighV : Px)
    (hc : lastConfirmedOfType st.confirmedFractals .FSL t true = some causeFSL) :
    signalCauseOk (mkLongSignal symbol timeframe candles t st causeFSL sHighV) := by
  obtain ⟨hty, hidx, -⟩ := lastConfirmedOfType_strict hc
  refine ⟨?_, fun hdir => ?_, fun _ => rfl⟩
  · simpa [mkLongSignal] using hidx
  · simp [mkLongSignal] at hdir

lemma stepSwitch_signals_sub (symbol timeframe : String) (candles : Array Candle)
    (t : Nat) (st : EngineState) :
    ∀ s ∈ (stepSwitch symbol timeframe candles t st).signals, s ∈ st.signals ∨ signalCauseOk s := by
  intro s hs
  unfold stepSwitch at hs
  cases hstate : st.state <;> simp only [hstate] at hs
  case WAIT_SWING_BOS => rw [signals_handleWaitSwingBos] at hs; exact .inl hs
  case BEAR_WAIT_PULLBACK_START => rw [signals_handleBearWaitPullbackStart] at hs; exact .inl hs
  case BEAR_TRACK_PULLBACK => rw [signals_handleBearTrackPullback] at hs; exact .inl hs
  case BEAR_WAIT_CONTINUATION_TRIGGER =>
    rcases signals_handleBearTrigger symbol timeframe candles t st with heq | ⟨c, v, hc, hv, heq⟩
    · rw [heq] at hs; exact .inl hs
    · rw [heq] at hs
      rcases List.mem_append.mp hs with h | h
      · exact .inl h
      · right
        rw [List.mem_singleton.mp h]
        exact mkShortSignal_causeOk symbol timeframe candles t st c v hc
  case BULL_WAIT_PULLBACK_START => rw [signals_handleBullWaitPullbackStart] at hs; exact .inl hs
  case BULL_TRACK_PULLBACK => rw [signals_handleBullTrackPullback] at hs; exact .inl hs
  case BULL_WAIT_CONTINUATION_TRIGGER =>
    rcases signals_handleBullTrigger symbol timeframe candles t st with heq | ⟨c, v, hc, hv, heq⟩
    · rw [heq] at hs; exact .inl hs
    · rw [heq] at hs
      rcases List.mem_append.mp hs with h | h
      · exact .inl h
      · right
        rw [List.mem_singleton.mp h]
        exact mkLongSignal_causeOk symbol timeframe candles t st c v hc
  case IN_TRADE => exact .inl hs

lemma stepAt_signals_sub (symbol timeframe : String) (candles : Array Candle)
    (t : Nat) (st : EngineState) :
    ∀ s ∈ (stepAt symbol timeframe candles t st).signals, s ∈ st.signals ∨ signalCauseOk s := by
  intro s hs
  unfold stepAt at hs
  rw [← signals_applyFractalConfirmation candles t st]
  cases h1 : (applyFractalConfirmation candles t st).state <;> simp only [h1] at hs
  case IN_TRADE =>
    rw [← signals_simulateStep candles t (applyFractalConfirmation candles t st)]
    cases h2 : (simulateStep candles t (applyFractalConfirmation candles t st)).state <;>
      simp only [h2] at hs
    case IN_TRADE => exact .inl hs
    all_goals exact stepSwitch_signals_sub symbol timeframe candles t _ s hs
  all_goals exact stepSwitch_signals_sub symbol timeframe candles t _ s hs

lemma runStepsFuel_signals_sub (symbol timeframe : String) (candles : Array Candle) :
    ∀ (n t : Nat) (st : EngineState) (s : EngineSignal),
      s ∈ (runStepsFuel symbol timeframe candles n t st).signals →
      s ∈ st.signals ∨ signalCauseOk s := by
  intro n
  induction n with
  | zero => intro t st s hs; exact .inl hs
  | succ k ih =>
    intro t st s hs
    rw [runStepsFuel_succ] at hs
    rcases ih _ _ _ hs with h | h
    · exact stepAt_signals_sub symbol timeframe candles t st s h
    · exact .inr h

end FxNola

namespace FxNola

lemma handleBearTrigger_no_emit (symbol timeframe : String) (candles : Array Candle)
    (t : Nat) (st : EngineState)
    (h : lastConfirmedOfType st.confirmedFractals .FSH t true = none ∨ st.sLow = none) :
    (handleBearTrigger symbol timeframe candles t st).signals = st.signals := by
  rcases signals_handleBearTrigger symbol timeframe candles t st with heq | ⟨c, v, hc, hv, -⟩
  · exact heq
  · rcases h with h | h <;> simp_all

lemma handleBullTrigger_no_emit (symbol timeframe : String) (candles : Array Candle)
    (t : Nat) (st : EngineState)
    (h : lastConfirmedOfType st.confirmedFractals .FSL t true = none ∨ st.sHigh = none) :
    (handleBullTrigger symbol timeframe candles t st).signals = st.signals := by
  rcases signals_handleBullTrigger symbol timeframe candles t st with heq | ⟨c, v, hc, hv, -⟩
  · exact heq
  · rcases h with h | h <;> simp_all

/-- C5: every Signal emitted by `runContinuationStrategy` carries a cause
fractal of the opposite type (FSH for SHORT, FSL for LONG) whose pivot index
is strictly below the trigger candle index; and at a trigger condition where
the cause fractal or the frozen pullback swing target (`sLow` for SHORT,
`sHigh` for LONG) is missing, the trigger handler emits no signal. -/
theorem claim_C5_signal_cause_and_target :
    (∀ (symbol timeframe : String) (candles : Array Candle) (sig : EngineSignal),
      sig ∈ (runContinuationStrategy symbol timeframe candles).signals →
        sig.causeFractalIndex < sig.triggerCandleIndex ∧
        (sig.direction = .SHORT → sig.causeFractalType = .FSH) ∧
        (sig.direction = .LONG → sig.causeFractalType = .FSL)) ∧
    (∀ (symbol timeframe : String) (candles : Array Candle) (t : Nat) (st : EngineState),
      (lastConfirmedOfType st.confirmedFractals .FSH t true = none ∨ st.sLow = none) →
        (handleBearTrigger symbol timeframe candles t st).signals = st.signals) ∧
    (∀ (symbol timeframe : String) (candles : Array Candle) (t : Nat) (st : EngineState),
      (lastConfirmedOfType st.confirmedFractals .FSL t true = none ∨ st.sHigh = none) →
        (handleBullTrigger symbol timeframe candles t st).signals = st.signals) := by
  refine ⟨?_, handleBearTrigger_no_emit, handleBullTrigger_no_emit⟩
  intro symbol timeframe candles sig hs
  have hsub := runStepsFuel_signals_sub symbol timeframe candles candles.size 0
    initialEngineState sig hs
  rcases hsub with h | h
  · simp [initialEngineState] at h
  · exact h

def cexSignal : EngineSignal :=
  { signalKey := "eurusd_m15_continuation_v1:EUR/USD:15min:SHORT:T8", strategyCode := "eurusd_m15_continuation_v1", symbol := "EUR/USD", timeframe := "15min", direction := FxNola.Direction.SHORT, bosTime := "T3", triggerTime := "T8", plannedEntryTime := some "T9", plannedEntryPrice := some ((2187 : Rat)/2000), entryStatus := FxNola.EntryStatus.known_next_open, stopLoss := (10983 : Rat)/10000, takeProfit := (2191 : Rat)/2000, impulsePips := 90, anchorLine := (219 : Rat)/200, causalExtreme := (138 : Rat)/125, pbLevel := (2199 : Rat)/2000, pullbackSwingTarget := (2191 : Rat)/2000, causeFractalType := FxNola.FractalType.FSH, causeFractalIndex := 4, triggerCandleIndex := 8, metrics := { bosToPullbackStartCandles := 3, pullbackStartToConfirmCandles := 1, confirmToTriggerCandles := 1 }, payloadStateMachine := "BEAR" }

theorem claim_C5_witness :
    cexSignal ∈ (runContinuationStrategy "EUR/USD" "15min" cexCandles).signals ∧
    cexSignal.causeFractalIndex < cexSignal.triggerCandleIndex ∧
    (cexSignal.direction = .SHORT → cexSignal.causeFractalType = .FSH) ∧
    (cexSignal.direction = .LONG → cexSignal.causeFractalType = .FSL) :=
  have hmem : cexSignal ∈ (runContinuationStrategy "EUR/USD" "15min" cexCandles).signals := by
    rw [cexFullSignals]
    simp only [cexState10]
    exact List.mem_singleton.mpr rfl
  ⟨hmem, claim_C5_signal_cause_and_target.1 "EUR/USD" "15min" cexCandles cexSignal hmem⟩

end FxNola

namespace FxNola

namespace Executor

inductive RiskReference where
  | balance
  | equity
deriving DecidableEq, Repr

/-- `config.js` `risk` object (lines 54-71). -/
structure RiskConfig where
  positionSizingMode : String
  riskPercent : ℚ
  riskReference : RiskReference
  accountCurrency : String
  volumeStepUnits : ℚ
  minVolumeUnits : ℚ
  maxVolumeUnits : ℚ
  marketSlippageBufferPercent : ℚ
deriving DecidableEq, Repr

/-- `executorLoop.js` `floorToStep` (lines 13-16); the `Number.isFinite`
guards cannot fire over ℚ, leaving the `step <= 0` guard. -/
def floorToStep (value step : ℚ) : ℚ :=
  if step ≤ 0 then 0 else (⌊value / step⌋ : ℚ) * step

structure PerUnitRisk where
  perUnitRisk : ℚ
  stopDistance : ℚ
deriving DecidableEq, Repr

/-- `executorLoop.js` `estimatePerUnitRiskInAccountCurrency` (lines 18-43);
thrown `Error`s become `Except.error` (interpolated details elided). -/
def estimatePerUnitRiskInAccountCurrency (symbol accountCurrency : String)
    (entryPrice stopLoss : ℚ) : Except String PerUnitRisk :=
  let stopDistance := |entryPrice - stopLoss|
  if ¬ (0 < stopDistance) then .error "Invalid stop distance for risk sizing"
  else
    let normalizedSymbol := (symbol.replace "/" "").toUpper
    if normalizedSymbol = "EURUSD" ∧ accountCurrency = "USD" then
      .ok { perUnitRisk := stopDistance, stopDistance := stopDistance }
    else if normalizedSymbol = "EURUSD" ∧ accountCurrency = "EUR" then
      .ok { perUnitRisk := stopDistance / entryPrice, stopDistance := stopDistance }
    else
      .error ("Unsupported risk conversion for symbol=" ++ symbol ++
        " accountCurrency=" ++ accountCurrency ++ ". Add FX conversion logic first.")

structure TraderSnapshot where
  balance : Option ℚ
  equity : Option ℚ
deriving DecidableEq, Repr

/-- The request-row fields read by the sizing routine; a JS `null` price is
`none` (its `Number(...)` conversion would be `NaN` and fail `isFinite`). -/
structure SizingRequest where
  symbol : String
  planned_entry_price : Option ℚ
  stop_loss : Option ℚ
deriving DecidableEq, Repr

structure SizedVolume where
  units : ℚ
  accountValue : ℚ
  reference : RiskReference
  riskPercent : ℚ
  riskBudget : ℚ
  effectiveRiskBudget : ℚ
  projectedRisk : ℚ
  perUnitRisk : ℚ
  stopDistance : ℚ
  entryPrice : ℚ
deriving DecidableEq, Repr

/-- `executorLoop.js` `computeSizedVolumeUnits` (lines 45-109); the awaited
trader snapshot is passed in as `trader`. -/
def computeSizedVolumeUnits (trader : TraderSnapshot) (req : SizingRequest)
    (risk : RiskConfig) : Except String SizedVolume :=
  let accountValueOpt :=
    match risk.riskReference, trader.equity with
    | .equity, some e => some e
    | _, _ => trader.balance
  match accountValueOpt with
  | none => .error "Invalid trader reference"
  | some accountValue =>
    if accountValue ≤ 0 then .error "Invalid trader reference"
    else
      match req.planned_entry_price with
      | none => .error "planned_entry_price required for strict risk sizing"
      | some entryPrice =>
        if entryPrice ≤ 0 then .error "planned_entry_price required for strict risk sizing"
        else
          match req.stop_loss with
          | none => .error "Invalid stop distance for risk sizing"
          | some stopLoss =>
            match estimatePerUnitRiskInAccountCurrency req.symbol risk.accountCurrency
                entryPrice stopLoss with
            | .error e => .error e
            | .ok pur =>
              let riskBudget := accountValue * (risk.riskPercent / 100)
              let slippageHaircut := max 0 risk.marketSlippageBufferPercent / 100
              let effectiveRiskBudget := riskBudget * (1 - slippageHaircut)
              if ¬ (0 < effectiveRiskBudget) then
                .error "Effective risk budget is non-positive"
              else
                let rawUnits := effectiveRiskBudget / pur.perUnitRisk
                let units0 := floorToStep rawUnits risk.volumeStepUnits
                let units :=
                  if 0 < risk.maxVolumeUnits then
                    floorToStep (min units0 risk.maxVolumeUnits) risk.volumeStepUnits
                  else units0
                if units < risk.minVolumeUnits then
                  .error "Risk budget too small for min volume."
                else
                  let projectedRisk := units * pur.perUnitRisk
                  if riskBudget + 1 / 1000000000 < projectedRisk then
                    .error "Projected risk exceeds configured risk budget after sizing"
                  else
                    .ok { units := units, accountValue := accountValue,
                          reference := risk.riskReference, riskPercent := risk.riskPercent,
                          riskBudget := riskBudget, effectiveRiskBudget := effectiveRiskBudget,
                          projectedRisk := projectedRisk, perUnitRisk := pur.perUnitRisk,
                          stopDistance := pur.stopDistance, entryPrice := entryPrice }

end Executor

end FxNola

namespace FxNola

namespace Executor

def traderW : TraderSnapshot := { balance := some 10000, equity := none }

def reqW : SizingRequest :=
  { symbol := "EUR/USD", planned_entry_price := some (11 / 10), stop_loss := some (1099 / 1000) }

def riskW : RiskConfig :=
  { positionSizingMode := "risk_percent", riskPercent := 1, riskReference := .balance,
    accountCurrency := "USD", volumeStepUnits := 1000, minVolumeUnits := 1000,
    maxVolumeUnits := 1000000, marketSlippageBufferPercent := 10 }

def sizedW : SizedVolume :=
  { units := 90000, accountValue := 10000, reference := .balance, riskPercent := 1,
    riskBudget := 100, effectiveRiskBudget := 90, projectedRisk := 90,
    perUnitRisk := 1 / 1000, stopDistance := 1 / 1000, entryPrice := 11 / 10 }

end Executor

/-- C2: whenever `computeSizedVolumeUnits` returns a volume (instead of
raising a sizing error), the projected risk `units * perUnitRisk` of the
step-floored, max-clamped volume is at most `riskBudget + 1e-9`; and the
returned volume is never below the configured minimum - equivalently, the
function raises a sizing error whenever the floored volume falls below the
minimum, so it never returns such a volume. -/
theorem claim_C2_risk_bounded_and_min_enforced
    (trader : Executor.TraderSnapshot) (req : Executor.SizingRequest)
    (risk : Executor.RiskConfig) (r : Executor.SizedVolume)
    (h : Executor.computeSizedVolumeUnits trader req risk = .ok r) :
    r.projectedRisk = r.units * r.perUnitRisk ∧
    r.projectedRisk ≤ r.riskBudget + 1 / 1000000000 ∧
    risk.minVolumeUnits ≤ r.units := by
  unfold Executor.computeSizedVolumeUnits at h
  rcases hao : (match risk.riskReference, trader.equity with
      | Executor.RiskReference.equity, some e => some e
      | _, _ => trader.balance) with - | accountValue
  · simp only [hao] at h
    cases h
  simp only [hao] at h
  by_cases hav : accountValue ≤ 0
  · simp only [if_pos hav] at h
    cases h
  simp only [if_neg hav] at h
  rcases hep : req.planned_entry_price with - | entryPrice
  · simp only [hep] at h
    cases h
  simp only [hep] at h
  by_cases hep0 : entryPrice ≤ 0
  · simp only [if_pos hep0] at h
    cases h
  simp only [if_neg hep0] at h
  rcases hsl : req.stop_loss with - | stopLoss
  · simp only [hsl] at h
    cases h
  simp only [hsl] at h
  rcases hpur : Executor.estimatePerUnitRiskInAccountCurrency req.symbol
      risk.accountCurrency entryPrice stopLoss with e | pur
  · simp only [hpur] at h
    cases h
  simp only [hpur] at h
  set riskBudget := accountValue * (risk.riskPercent / 100) with hRB
  set effectiveRiskBudget :=
    riskBudget * (1 - max 0 risk.marketSlippageBufferPercent / 100) with hEB
  by_cases heff : ¬ (0 < effectiveRiskBudget)
  · simp only [if_pos heff] at h
    cases h
  simp only [if_neg heff] at h
  set units :=
    (if 0 < risk.maxVolumeUnits then
      Executor.floorToStep
        (min (Executor.floorToStep (effectiveRiskBudget / pur.perUnitRisk)
          risk.volumeStepUnits) risk.maxVolumeUnits) risk.volumeStepUnits
    else Executor.floorToStep (effectiveRiskBudget / pur.perUnitRisk)
      risk.volumeStepUnits) with hU
  by_cases hmin : units < risk.minVolumeUnits
  · simp only [if_pos hmin] at h
    cases h
  simp only [if_neg hmin] at h
  by_cases hproj : riskBudget + 1 / 1000000000 < units * pur.perUnitRisk
  · simp only [if_pos hproj] at h
    cases h
  simp only [if_neg hproj] at h
  cases h
  exact ⟨rfl, le_of_not_lt hproj, le_of_not_lt hmin⟩

lemma estimateW :
    Executor.estimatePerUnitRiskInAccountCurrency "EUR/USD" "USD" (11 / 10) (1099 / 1000) =
      .ok { perUnitRisk := 1 / 1000, stopDistance := 1 / 1000 } := by
  unfold Executor.estimatePerUnitRiskInAccountCurrency
  rw [if_neg (by norm_num), if_pos (by with_unfolding_all decide)]
  norm_num

lemma computeW :
    Executor.computeSizedVolumeUnits Executor.traderW Executor.reqW Executor.riskW =
      .ok Executor.sizedW := by
  norm_num [Executor.computeSizedVolumeUnits, Executor.floorToStep, Executor.traderW,
    Executor.reqW, Executor.riskW, Executor.sizedW, estimateW]

theorem claim_C2_witness :
    Executor.sizedW.projectedRisk = Executor.sizedW.units * Executor.sizedW.perUnitRisk ∧
    Executor.sizedW.projectedRisk ≤ Executor.sizedW.riskBudget + 1 / 1000000000 ∧
    Executor.riskW.minVolumeUnits ≤ Executor.sizedW.units :=
  claim_C2_risk_bounded_and_min_enforced Executor.traderW Executor.reqW Executor.riskW
    Executor.sizedW computeW

end FxNola

namespace FxNola

namespace Executor

/-- `broker_order_requests.status` values (migration + executor loop). -/
inductive ReqStatus where
  | queued
  | processing
  | submitted
  | accepted
  | rejected
  | failed
  | cancelled
deriving DecidableEq, Repr

/-- The columns of a `broker_order_requests` row touched by the claim/failure
path; timestamps are epoch milliseconds. -/
structure OrderRequestRow where
  id : Nat
  status : ReqStatus
  attempts : Option Nat
  next_attempt_after : Option Int
  last_attempt_at : Option Int
  broker_error_code : Option String
  broker_error_message : Option String
deriving DecidableEq, Repr

/-- `ctraderClient.js` `CTraderApiError` vs a plain `Error`
(`executorLoop.js` catch block distinguishes them with `instanceof`). -/
inductive ExecError where
  | ctraderApi (message : String) (code : Option String) (payloadType : Option Nat)
  | generic (message : String)
deriving DecidableEq, Repr

def ExecError.message : ExecError → String
  | .ctraderApi m _ _ => m
  | .generic m => m

/-- `isCTraderError ? (e.code ?? null) : null` (line 266). -/
def ExecError.brokerErrorCode : ExecError → Option String
  | .ctraderApi _ c _ => c
  | .generic _ => none

/-- `executorLoop.js` `markProcessing` (lines 308-319): a conditional update
guarded by the row's prior status (`.in("status", ["queued", "failed"])`);
a row in any other status is left unchanged. -/
def markProcessing (row : OrderRequestRow) (now : Int) : OrderRequestRow :=
  if row.status = .queued ∨ row.status = .failed then
    { row with
        status := .processing
        attempts := some (row.attempts.getD 0 + 1)
        last_attempt_at := some now }
  else row

/-- The catch block of `processRequest` (lines 263-305): the row update
applied on any submission error.  `row` is the request as fetched, so its
`attempts` is the pre-claim counter (`req.attempts || 0`). -/
def applyFailureUpdate (row : OrderRequestRow) (e : ExecError) (now : Int) : OrderRequestRow :=
  let backoffMins : Nat := min 30 (max 1 (row.attempts.getD 0 + 1))
  { row with
      status := .failed
      last_attempt_at := some now
      next_attempt_after := some (now + (backoffMins : Int) * 60000)
      broker_error_code := e.brokerErrorCode
      broker_error_message := some e.message }

end Executor

/-- C8: after the claim increments the attempt counter to `a + 1` (where `a`
is the fetched row's counter), any submission error marks the request
`failed`, records the human-readable message, records the venue error code
exactly when the error is a typed venue error, and sets
`next_attempt_after = now + min 30 (a + 1) minutes` - linear backoff in the
post-claim attempt counter, capped at 30 minutes. -/
theorem claim_C8_failure_marks_and_backoff (row : Executor.OrderRequestRow)
    (e : Executor.ExecError) (claimNow failNow : Int)
    (hst : row.status = .queued ∨ row.status = .failed) :
    (Executor.markProcessing row claimNow).status = .processing ∧
    (Executor.markProcessing row claimNow).attempts = some (row.attempts.getD 0 + 1) ∧
    (Executor.applyFailureUpdate row e failNow).status = .failed ∧
    (Executor.applyFailureUpdate row e failNow).broker_error_message =
      some e.message ∧
    (Executor.applyFailureUpdate row e failNow).broker_error_code =
      (match e with
        | .ctraderApi _ c _ => c
        | .generic _ => none) ∧
    (Executor.applyFailureUpdate row e failNow).next_attempt_after =
      some (failNow + ((min 30 (row.attempts.getD 0 + 1) : Nat) : Int) * 60000) := by
  have hmax : max 1 (row.attempts.getD 0 + 1) = row.attempts.getD 0 + 1 := by omega
  refine ⟨?_, ?_, rfl, rfl, ?_, ?_⟩
  · simp [Executor.markProcessing, if_pos hst]
  · simp [Executor.markProcessing, if_pos hst]
  · cases e <;> rfl
  · simp [Executor.applyFailureUpdate, hmax]

def c8Row : Executor.OrderRequestRow :=
  { id := 7, status := .failed, attempts := some 45, next_attempt_after := none,
    last_attempt_at := none, broker_error_code := none, broker_error_message := none }

def c8Error : Executor.ExecError :=
  .ctraderApi "cTrader error" (some "TRADING_DISABLED") (some 2142)

theorem claim_C8_witness :
    (Executor.markProcessing c8Row 1000).status = .processing ∧
    (Executor.markProcessing c8Row 1000).attempts = some 46 ∧
    (Executor.applyFailureUpdate c8Row c8Error 2000).status = .failed ∧
    (Executor.applyFailureUpdate c8Row c8Error 2000).broker_error_message =
      some c8Error.message ∧
    (Executor.applyFailureUpdate c8Row c8Error 2000).broker_error_code =
      some "TRADING_DISABLED" ∧
    (Executor.applyFailureUpdate c8Row c8Error 2000).next_attempt_after =
      some (2000 + (30 : Int) * 60000) :=
  claim_C8_failure_marks_and_backoff c8Row c8Error 1000 2000 (by decide)

end FxNola

namespace FxNola

namespace Client

/-- Value stored in `this.pending` under a client message id
(`ctraderClient.js` `request`, lines 218-227); the resolver closures are
irrelevant to the claim, only the expectation survives the embedding. -/
structure PendingEntry where
  expectPayloadType : Option Nat
deriving DecidableEq, Repr

/-- The connection-relevant fields of `CTraderOpenApiClient`:
`connected`, `authed`, `ws.readyState === OPEN` (as `wsOpen`),
`messageId`, and the insertion-ordered `pending` map. -/
structure ClientState where
  connected : Bool
  authed : Bool
  wsOpen : Bool
  messageId : Nat
  pending : List (String × PendingEntry)
deriving DecidableEq, Repr

/-- `this.pending.get(clientMsgId)`. -/
def pendingLookup (s : ClientState) (k : String) : Option PendingEntry :=
  (s.pending.find? (fun p => decide (p.1 = k))).map Prod.snd

/-- `nextClientMsgId` + `this.pending.set(clientMsgId, {...})` in `request`
(lines 207, 218): allocate `String(this.messageId++)` and insert the entry. -/
def registerRequest (s : ClientState) (expect : Option Nat) : ClientState × String :=
  let id := toString s.messageId
  ({ s with
      messageId := s.messageId + 1
      pending := s.pending ++ [(id, { expectPayloadType := expect })] }, id)

/-- The timeout callback inside `request` (lines 214-217):
`this.pending.delete(clientMsgId)` and reject that one promise.  Nothing
else on the client is touched. -/
def onRequestTimeout (s : ClientState) (id : String) : ClientState :=
  { s with pending := s.pending.filter (fun p => decide (p.1 ≠ id)) }

/-- `close()` (lines 133-149): drop the socket, clear both flags, reject and
clear every pending call. -/
def close (s : ClientState) : ClientState :=
  { s with connected := false, authed := false, wsOpen := false, pending := [] }

/-- `connectAndAuth` on its success path: `close()` then reconnect and
re-authenticate. -/
def connectAndAuth (s : ClientState) : ClientState :=
  { close s with connected := true, authed := true, wsOpen := true }

/-- `ensureReady` (lines 67-72) together with whether it reconnected:
a no-op when connected, authed and the socket is open, otherwise a full
`connectAndAuth`. -/
def ensureReady (s : ClientState) : ClientState × Bool :=
  if s.connected && s.authed && s.wsOpen then (s, false)
  else (connectAndAuth s, true)

lemma find_filter_self {α : Type} (l : List (String × α)) (id : String) :
    (l.filter (fun p => decide (p.1 ≠ id))).find? (fun p => decide (p.1 = id)) = none := by
  induction l with
  | nil => rfl
  | cons a t ih =>
    by_cases ha : a.1 = id <;> simp [List.filter_cons, List.find?, ha, ih]

lemma find_filter_ne {α : Type} (l : List (String × α)) (id k : String) (hk : k ≠ id) :
    (l.filter (fun p => decide (p.1 ≠ id))).find? (fun p => decide (p.1 = k)) =
      l.find? (fun p => decide (p.1 = k)) := by
  induction l with
  | nil => rfl
  | cons a t ih =>
    by_cases ha : a.1 = id
    · have hak : ¬ a.1 = k := by rw [ha]; exact fun h => hk h.symm
      rw [List.filter_cons_of_neg, List.find?_cons_of_neg]
      · exact ih
      · simp [hak]
      · simp [ha]
    · rw [List.filter_cons_of_pos]
      by_cases hak : a.1 = k
      · rw [List.find?_cons_of_pos, List.find?_cons_of_pos] <;> simp [hak]
      · rw [List.find?_cons_of_neg, List.find?_cons_of_neg]
        · exact ih
        · simp [hak]
        · simp [hak]
      · simp [ha]

end Client

/-- C7: on a ready connection, a correlated-request timeout fails only that
call: the timed-out id is removed from the pending table, the connection and
authentication flags and every other pending entry are untouched, and a
subsequent `ensureReady` on the resulting state is a no-op (no reconnect). -/
theorem claim_C7_timeout_fails_only_that_call (s : Client.ClientState) (id : String)
    (hready : s.connected = true ∧ s.authed = true ∧ s.wsOpen = true) :
    (Client.onRequestTimeout s id).connected = true ∧
    (Client.onRequestTimeout s id).authed = true ∧
    (Client.onRequestTimeout s id).wsOpen = true ∧
    Client.pendingLookup (Client.onRequestTimeout s id) id = none ∧
    (∀ k, k ≠ id →
      Client.pendingLookup (Client.onRequestTimeout s id) k = Client.pendingLookup s k) ∧
    Client.ensureReady (Client.onRequestTimeout s id) =
      (Client.onRequestTimeout s id, false) := by
  obtain ⟨hc, ha, hw⟩ := hready
  refine ⟨hc, ha, hw, ?_, ?_, ?_⟩
  · simp [Client.pendingLookup, Client.onRequestTimeout, Client.find_filter_self]
  · intro k hk
    simp only [Client.pendingLookup, Client.onRequestTimeout]
    rw [Client.find_filter_ne _ _ _ hk]
  · simp [Client.ensureReady, Client.onRequestTimeout, hc, ha, hw]

def c7State : Client.ClientState :=
  { connected := true, authed := true, wsOpen := true, messageId := 3,
    pending := [("1", { expectPayloadType := some 2101 }),
                ("2", { expectPayloadType := some 2126 })] }

theorem claim_C7_witness :
    (Client.onRequestTimeout c7State "1").connected = true ∧
    Client.pendingLookup (Client.onRequestTimeout c7State "1") "1" = none ∧
    Client.pendingLookup (Client.onRequestTimeout c7State "1") "2" =
      Client.pendingLookup c7State "2" ∧
    Client.ensureReady (Client.onRequestTimeout c7State "1") =
      (Client.onRequestTimeout c7State "1", false) := by
  have h := claim_C7_timeout_fails_only_that_call c7State "1" (by decide)
  exact ⟨h.1, h.2.2.2.1, h.2.2.2.2.1 "2" (by decide), h.2.2.2.2.2⟩

end FxNola

namespace FxNola

namespace Client

/-- JavaScript `Math.round`: half-up rounding, `⌊x + 1/2⌋`. -/
def jsRound (q : ℚ) : ℤ := ⌊q + 1/2⌋

/-- `toProtoVolume` (line 36-39): volume in hundredths of a unit. -/
def toProtoVolume (units : ℚ) : ℤ := jsRound (units * 100)

/-- `toRelativePriceDistance` (lines 41-44): relative SL/TP in 1/100000
price units; note the `Math.abs` on the signed difference. -/
def toRelativePriceDistance (priceDistance : ℚ) : ℤ :=
  jsRound (|priceDistance| * 100000)

inductive TradeSide where
  | buy
  | sell
deriving DecidableEq, Repr

/-- The `NEW_ORDER_REQ` payload fields built by `placeMarketOrder`
(lines 251-259). -/
structure NewOrderPayload where
  symbolId : Int
  tradeSide : TradeSide
  volume : Int
  relativeStopLoss : Int
  relativeTakeProfit : Int
  label : String
  comment : String
deriving DecidableEq, Repr

/-- The pure payload construction inside `placeMarketOrder` (lines 236-259):
side from direction, proto volume, relative distances from the signed
entry-stop / take-entry differences, label and comment truncation. -/
def buildMarketOrderPayload (requestKey direction : String)
    (entryPrice stopLoss takeProfit : ℚ) (symbolId : Int) (volumeUnits : ℚ) :
    NewOrderPayload :=
  { symbolId := symbolId
    tradeSide := if direction = "LONG" then .buy else .sell
    volume := toProtoVolume volumeUnits
    relativeStopLoss := toRelativePriceDistance (entryPrice - stopLoss)
    relativeTakeProfit := toRelativePriceDistance (takeProfit - entryPrice)
    label := ("sig:" ++ requestKey).take 45
    comment := ("supabase:" ++ requestKey).take 100 }

lemma toRelativePriceDistance_nonneg (d : ℚ) : 0 ≤ toRelativePriceDistance d := by
  unfold toRelativePriceDistance jsRound
  refine Int.le_floor.mpr ?_
  push_cast
  positivity

end Client

/-- C9: for every market-order payload, the wire fields `relativeStopLoss`
and `relativeTakeProfit` are non-negative, and a stop (resp. target) mirrored
to the wrong side of the entry price produces exactly the same wire field -
the sign of the protective distance is silently discarded, never rejected. -/
theorem claim_C9_relative_distances_unsigned (k d : String)
    (entry sl tp : ℚ) (sym : Int) (v : ℚ) :
    0 ≤ (Client.buildMarketOrderPayload k d entry sl tp sym v).relativeStopLoss ∧
    0 ≤ (Client.buildMarketOrderPayload k d entry sl tp sym v).relativeTakeProfit ∧
    (Client.buildMarketOrderPayload k d entry (2 * entry - sl) tp sym v).relativeStopLoss =
      (Client.buildMarketOrderPayload k d entry sl tp sym v).relativeStopLoss ∧
    (Client.buildMarketOrderPayload k d entry sl (2 * entry - tp) sym v).relativeTakeProfit =
      (Client.buildMarketOrderPayload k d entry sl tp sym v).relativeTakeProfit := by
  refine ⟨Client.toRelativePriceDistance_nonneg _, Client.toRelativePriceDistance_nonneg _, ?_, ?_⟩
  · show Client.toRelativePriceDistance (entry - (2 * entry - sl)) =
      Client.toRelativePriceDistance (entry - sl)
    have h : entry - (2 * entry - sl) = -(entry - sl) := by ring
    rw [h]
    unfold Client.toRelativePriceDistance
    rw [abs_neg]
  · show Client.toRelativePriceDistance (2 * entry - tp - entry) =
      Client.toRelativePriceDistance (tp - entry)
    have h : 2 * entry - tp - entry = -(tp - entry) := by ring
    rw [h]
    unfold Client.toRelativePriceDistance
    rw [abs_neg]

end FxNola

namespace FxNola

namespace Events

/-- Substring occurrence on character lists (JavaScript
`String.prototype.includes`). -/
def subOccurs (needle : List Char) : List Char → Bool
  | [] => needle.isEmpty
  | h :: t => needle.isPrefixOf (h :: t) || subOccurs needle t

/-- `haystack.includes(needle)` on Lean strings. -/
def strIncludes (s sub : String) : Bool := subOccurs sub.data s.data

/-- The fields of a cTrader `ProtoOAExecutionEvent` payload read by
`part_001` (`extractEventField` paths); `serializedUpper` models
`JSON.stringify(payload).toUpperCase()`, the only use of the raw JSON. -/
structure EventPayload where
  positionPositionId : Option Int
  closedPositionPositionId : Option Int
  positionId : Option Int
  orderOrderId : Option Int
  orderId : Option Int
  executionType : Option String
  utcLastUpdateTimestamp : Option Int
  dealUtcTimestamp : Option Int
  executionTimestamp : Option Int
  dealExecutionPrice : Option ℚ
  executionPrice : Option ℚ
  closePrice : Option ℚ
  serializedUpper : String
deriving DecidableEq, Repr

structure ExecEvent where
  payloadType : Nat
  payload : EventPayload
deriving DecidableEq, Repr

/-- `position.positionId ?? closedPosition.positionId ?? positionId`
(lines 246-249 and 297-299). -/
def extractPositionId (p : EventPayload) : Option Int :=
  p.positionPositionId <|> p.closedPositionPositionId <|> p.positionId

/-- `order.orderId ?? orderId` (lines 251-253 and 300-301). -/
def extractOrderId (p : EventPayload) : Option Int :=
  p.orderOrderId <|> p.orderId

/-- `detectCloseReason` (lines 238-243): scan the uppercased JSON for the
close markers; TAKE_PROFIT wins over STOP_LOSS. -/
def detectCloseReason (p : EventPayload) : Option String :=
  if strIncludes p.serializedUpper "TAKE_PROFIT" then some "TP"
  else if strIncludes p.serializedUpper "STOP_LOSS" then some "SL"
  else none

def optIntStr : Option Int → String
  | some n => toString n
  | none => ""

def optStr : Option String → String
  | some s => s
  | none => ""

/-- `eventSignature` (lines 245-258). -/
def eventSignature (ev : ExecEvent) : String :=
  toString ev.payloadType ++ ":" ++ optStr ev.payload.executionType ++ ":" ++
    optIntStr (extractPositionId ev.payload) ++ ":" ++
    optIntStr (extractOrderId ev.payload) ++ ":" ++
    optIntStr (ev.payload.utcLastUpdateTimestamp <|> ev.payload.dealUtcTimestamp)

/-- `eventTimestamp` (lines 223-236) restricted to numeric timestamps:
first finite positive candidate, else the current time. -/
def eventTimestamp (p : EventPayload) (now : Int) : Int :=
  match p.utcLastUpdateTimestamp <|> p.dealUtcTimestamp <|> p.executionTimestamp with
  | some n => if 0 < n then n else now
  | none => now

/-- `deal.executionPrice ?? executionPrice ?? closePrice` (lines 340-342). -/
def extractExitPrice (p : EventPayload) : Option ℚ :=
  p.dealExecutionPrice <|> p.executionPrice <|> p.closePrice

/-- A `broker_execution_events` row as written by the handler. -/
structure EventRow where
  event_signature : String
  payload_type : Nat
  execution_type : Option String
  broker_position_id : Option String
  broker_order_id : Option String
  close_reason : Option String
  event_time : Int
  received_at : Int
deriving DecidableEq, Repr

/-- The `broker_order_requests` columns read by the close path. -/
structure RequestRow where
  id : Nat
  broker : String
  status : String
  signal_key : String
  updated_at : Int
  broker_position_id : Option String
  broker_order_id : Option String
deriving DecidableEq, Repr

/-- The `strategy_trades` columns touched by the close path. -/
structure TradeRow where
  signal_key : String
  status : String
  exit_reason : Option String
  exit_time : Option Int
  exit_price : Option ℚ
  telegram_close_notified_at : Option Int
deriving DecidableEq, Repr

/-- The three tables the handler touches. -/
structure ExecStore where
  events : List EventRow
  orderRequests : List RequestRow
  trades : List TradeRow
deriving DecidableEq, Repr

/-- `upsert(..., { onConflict: "event_signature" })`: replace the row with
the same signature if present, else append. -/
def upsertEventRow (evs : List EventRow) (row : EventRow) : List EventRow :=
  if evs.any (fun r => decide (r.event_signature = row.event_signature)) then
    evs.map (fun r => if r.event_signature = row.event_signature then row else r)
  else evs ++ [row]

/-- `.eq("broker","ctrader").in("status",[...]).order("updated_at",
{ascending:false}).limit(1)` plus the id filter: latest matching row by
`updated_at`. -/
def findLatestRequest (reqs : List RequestRow) (pred : RequestRow → Bool) :
    Option RequestRow :=
  (reqs.filter pred).foldl
    (fun acc r =>
      match acc with
      | none => some r
      | some b => if b.updated_at < r.updated_at then some r else some b)
    none

def statusEligible (st : String) : Bool :=
  st == "accepted" || st == "submitted" || st == "processing" ||
    st == "failed" || st == "queued"

/-- The request lookup of lines 324-338: by position id when present, else
by order id, else nothing. -/
def requestFor (reqs : List RequestRow) (p : EventPayload) : Option RequestRow :=
  match extractPositionId p with
  | some pid =>
      findLatestRequest reqs (fun r =>
        r.broker == "ctrader" && statusEligible r.status &&
          r.broker_position_id == some (toString pid))
  | none =>
      match extractOrderId p with
      | some oid =>
          findLatestRequest reqs (fun r =>
            r.broker == "ctrader" && statusEligible r.status &&
              r.broker_order_id == some (toString oid))
      | none => none

/-- The `strategy_trades` update of lines 346-355: rows matching the
request's `signal_key` AND `status = "OPEN"` are closed; others untouched. -/
def closeUpdate (key reason : String) (ts : Int) (px : Option ℚ)
    (t : TradeRow) : TradeRow :=
  if t.signal_key = key ∧ t.status = "OPEN" then
    { t with status := "CLOSED", exit_reason := some reason,
             exit_time := some ts, exit_price := px }
  else t

/-- The post-telegram update of lines 380-386: stamp
`telegram_close_notified_at` on CLOSED rows with the request's key. -/
def tgUpdate (key : String) (now : Int) (t : TradeRow) : TradeRow :=
  if t.signal_key = key ∧ t.status = "CLOSED" then
    { t with telegram_close_notified_at := some now }
  else t

/-- The event row inserted at lines 305-318. -/
def eventRowOf (ev : ExecEvent) (now : Int) : EventRow :=
  { event_signature := eventSignature ev
    payload_type := ev.payloadType
    execution_type := ev.payload.executionType
    broker_position_id := (extractPositionId ev.payload).map toString
    broker_order_id := (extractOrderId ev.payload).map toString
    close_reason := detectCloseReason ev.payload
    event_time := eventTimestamp ev.payload now
    received_at := now }

/-- `BrokerExecutor.handleExecutionEvent` (lines 292-387) as a pure store
transition; `now` is the wall clock in ms and `telegramOk` the result of
`sendTelegram`. -/
def handleExecutionEvent (st : ExecStore) (ev : ExecEvent) (now : Int)
    (telegramOk : Bool) : ExecStore :=
  let evs := upsertEventRow st.events (eventRowOf ev now)
  match detectCloseReason ev.payload with
  | none => { st with events := evs }
  | some reason =>
      match requestFor st.orderRequests ev.payload with
      | none => { st with events := evs }
      | some req =>
          let closed := st.trades.map
            (closeUpdate req.signal_key reason (eventTimestamp ev.payload now)
              (extractExitPrice ev.payload))
          if telegramOk then
            { st with events := evs, trades := closed.map (tgUpdate req.signal_key now) }
          else { st with events := evs, trades := closed }

/-- The close-relevant state of a trade row: key, status and exit fields. -/
def closeState (t : TradeRow) : String × String × Option String × Option Int × Option ℚ :=
  (t.signal_key, t.status, t.exit_reason, t.exit_time, t.exit_price)

end Events

end FxNola

namespace FxNola

namespace Events

lemma closeUpdate_signal_key (k r : String) (ts : Int) (px : Option ℚ) (t : TradeRow) :
    (closeUpdate k r ts px t).signal_key = t.signal_key := by
  unfold closeUpdate; split <;> rfl

lemma closeUpdate_not_open (k r : String) (ts : Int) (px : Option ℚ) (t : TradeRow) :
    (closeUpdate k r ts px t).signal_key = k →
      (closeUpdate k r ts px t).status ≠ "OPEN" := by
  unfold closeUpdate
  split
  · intro _ hs
    exact (by decide : ("CLOSED" : String) ≠ "OPEN") hs
  · rename_i hg
    intro hk hs
    exact hg ⟨hk, hs⟩

lemma tgUpdate_closeState (k : String) (now : Int) (t : TradeRow) :
    closeState (tgUpdate k now t) = closeState t := by
  unfold tgUpdate; split <;> rfl

lemma tgUpdate_signal_key (k : String) (now : Int) (t : TradeRow) :
    (tgUpdate k now t).signal_key = t.signal_key := by
  unfold tgUpdate; split <;> rfl

lemma tgUpdate_status (k : String) (now : Int) (t : TradeRow) :
    (tgUpdate k now t).status = t.status := by
  unfold tgUpdate; split <;> rfl

lemma map_closeUpdate_eq_self (k r : String) (ts : Int) (px : Option ℚ)
    (l : List TradeRow) (h : ∀ t ∈ l, t.signal_key = k → t.status ≠ "OPEN") :
    l.map (closeUpdate k r ts px) = l := by
  induction l with
  | nil => rfl
  | cons a t ih =>
    have ha : closeUpdate k r ts px a = a := by
      unfold closeUpdate
      rw [if_neg]
      rintro ⟨h1, h2⟩
      exact h a (List.mem_cons_self a t) h1 h2
    simp only [List.map_cons, ha, ih (fun x hx hk => h x (List.mem_cons_of_mem a hx) hk)]

lemma upsertEventRow_mem_self (evs : List EventRow) (row : EventRow) :
    row ∈ upsertEventRow evs row := by
  unfold upsertEventRow
  split
  · rename_i h
    rw [List.any_eq_true] at h
    obtain ⟨x, hx, hdec⟩ := h
    rw [decide_eq_true_eq] at hdec
    exact List.mem_map.mpr ⟨x, hx, by rw [if_pos hdec]⟩
  · exact List.mem_append_right _ (List.mem_singleton.mpr rfl)

lemma upsertEventRow_length (evs : List EventRow) (row : EventRow)
    (h : evs.any (fun r => decide (r.event_signature = row.event_signature)) = true) :
    (upsertEventRow evs row).length = evs.length := by
  unfold upsertEventRow
  rw [if_pos h, List.length_map]

lemma handle_orderRequests (st : ExecStore) (ev : ExecEvent) (now : Int) (tg : Bool) :
    (handleExecutionEvent st ev now tg).orderRequests = st.orderRequests := by
  unfold handleExecutionEvent
  rcases detectCloseReason ev.payload with _ | reason
  · rfl
  · rcases requestFor st.orderRequests ev.payload with _ | req
    · rfl
    · cases tg <;> rfl

lemma handle_events (st : ExecStore) (ev : ExecEvent) (now : Int) (tg : Bool) :
    (handleExecutionEvent st ev now tg).events = upsertEventRow st.events (eventRowOf ev now) := by
  unfold handleExecutionEvent
  rcases detectCloseReason ev.payload with _ | reason
  · rfl
  · rcases requestFor st.orderRequests ev.payload with _ | req
    · rfl
    · cases tg <;> rfl

lemma handle_trades_of_close (st : ExecStore) (ev : ExecEvent) (now : Int) (tg : Bool)
    (reason : String) (req : RequestRow)
    (hcr : detectCloseReason ev.payload = some reason)
    (hreq : requestFor st.orderRequests ev.payload = some req) :
    (handleExecutionEvent st ev now tg).trades =
      if tg then
        (st.trades.map (closeUpdate req.signal_key reason (eventTimestamp ev.payload now)
          (extractExitPrice ev.payload))).map (tgUpdate req.signal_key now)
      else
        st.trades.map (closeUpdate req.signal_key reason (eventTimestamp ev.payload now)
          (extractExitPrice ev.payload)) := by
  simp only [handleExecutionEvent, hcr, hreq]
  cases tg <;> rfl

lemma handle_trades_of_noreq (st : ExecStore) (ev : ExecEvent) (now : Int) (tg : Bool)
    (hreq : requestFor st.orderRequests ev.payload = none) :
    (handleExecutionEvent st ev now tg).trades = st.trades := by
  rcases hcr : detectCloseReason ev.payload with _ | reason
  · simp only [handleExecutionEvent, hcr]
  · simp only [handleExecutionEvent, hcr, hreq]

lemma no_open_after_close (st : ExecStore) (ev : ExecEvent) (now : Int) (tg : Bool)
    (reason : String) (req : RequestRow)
    (hcr : detectCloseReason ev.payload = some reason)
    (hreq : requestFor st.orderRequests ev.payload = some req) :
    ∀ t ∈ (handleExecutionEvent st ev now tg).trades,
      t.signal_key = req.signal_key → t.status ≠ "OPEN" := by
  intro t ht hk
  rw [handle_trades_of_close st ev now tg reason req hcr hreq] at ht
  have key : ∀ x ∈ st.trades.map (closeUpdate req.signal_key reason
      (eventTimestamp ev.payload now) (extractExitPrice ev.payload)),
      x.signal_key = req.signal_key → x.status ≠ "OPEN" := by
    intro x hx
    obtain ⟨y, hy, hye⟩ := List.mem_map.mp hx
    rw [← hye]
    exact closeUpdate_not_open _ _ _ _ _
  by_cases htg : tg = true
  · rw [if_pos htg] at ht
    obtain ⟨y, hy, hye⟩ := List.mem_map.mp ht
    rw [← hye] at hk ⊢
    rw [tgUpdate_signal_key] at hk
    rw [tgUpdate_status]
    exact key y hy hk
  · rw [if_neg htg] at ht
    exact key t ht hk

end Events

end FxNola

namespace FxNola

/-- C3: once a close-reason event has closed the trades matching the
looked-up request (OPEN rows get status CLOSED with the event's reason,
timestamp and exit price), processing a further close-reason event carrying
the same position id - in particular an identical replay - leaves every
trade's key, status and exit fields unchanged, while the event itself is
still recorded: its signature appears in the events table, and an identical
signature adds no new row (signature upsert). -/
theorem claim_C3_close_exactly_once
    (st : Events.ExecStore) (ev ev2 : Events.ExecEvent)
    (now1 now2 : Int) (tg1 tg2 : Bool)
    (reason reason2 : String) (pid : Int) (req : Events.RequestRow)
    (hcr : Events.detectCloseReason ev.payload = some reason)
    (hcr2 : Events.detectCloseReason ev2.payload = some reason2)
    (hpid : Events.extractPositionId ev.payload = some pid)
    (hpid2 : Events.extractPositionId ev2.payload = some pid)
    (hreq : Events.requestFor st.orderRequests ev.payload = some req) :
    (Events.handleExecutionEvent st ev now1 tg1).trades.map Events.closeState =
      st.trades.map (fun t => Events.closeState
        (Events.closeUpdate req.signal_key reason
          (Events.eventTimestamp ev.payload now1)
          (Events.extractExitPrice ev.payload) t)) ∧
    (∀ t ∈ st.trades, t.signal_key = req.signal_key → t.status = "OPEN" →
      Events.closeState (Events.closeUpdate req.signal_key reason
          (Events.eventTimestamp ev.payload now1)
          (Events.extractExitPrice ev.payload) t) =
        (t.signal_key, "CLOSED", some reason,
          some (Events.eventTimestamp ev.payload now1),
          Events.extractExitPrice ev.payload)) ∧
    (Events.handleExecutionEvent (Events.handleExecutionEvent st ev now1 tg1)
        ev2 now2 tg2).trades.map Events.closeState =
      (Events.handleExecutionEvent st ev now1 tg1).trades.map Events.closeState ∧
    (∃ r ∈ (Events.handleExecutionEvent (Events.handleExecutionEvent st ev now1 tg1)
        ev2 now2 tg2).events, r.event_signature = Events.eventSignature ev2) ∧
    (Events.eventSignature ev2 = Events.eventSignature ev →
      (Events.handleExecutionEvent (Events.handleExecutionEvent st ev now1 tg1)
          ev2 now2 tg2).events.length =
        (Events.handleExecutionEvent st ev now1 tg1).events.length) := by
  have hreq2 : Events.requestFor
      (Events.handleExecutionEvent st ev now1 tg1).orderRequests ev2.payload = some req := by
    rw [Events.handle_orderRequests]
    unfold Events.requestFor at hreq ⊢
    rw [hpid2]
    rw [hpid] at hreq
    exact hreq
  refine ⟨?_, ?_, ?_, ?_, ?_⟩
  · rw [Events.handle_trades_of_close st ev now1 tg1 reason req hcr hreq]
    by_cases htg : tg1 = true
    · rw [if_pos htg, List.map_map, List.map_map]
      congr 1
      funext t
      exact Events.tgUpdate_closeState _ _ _
    · rw [if_neg htg, List.map_map]
      rfl
  · intro t ht hk hs
    unfold Events.closeUpdate
    rw [if_pos ⟨hk, hs⟩]
    rfl
  · rw [Events.handle_trades_of_close _ ev2 now2 tg2 reason2 req hcr2 hreq2]
    have hnoopen := Events.no_open_after_close st ev now1 tg1 reason req hcr hreq
    rw [Events.map_closeUpdate_eq_self _ _ _ _ _ hnoopen]
    by_cases htg : tg2 = true
    · rw [if_pos htg, List.map_map]
      have : Events.closeState ∘ Events.tgUpdate req.signal_key now2 = Events.closeState := by
        funext t
        exact Events.tgUpdate_closeState _ _ _
      rw [this]
    · rw [if_neg htg]
  · rw [Events.handle_events]
    exact ⟨Events.eventRowOf ev2 now2, Events.upsertEventRow_mem_self _ _, rfl⟩
  · intro hsig
    rw [Events.handle_events, Events.handle_events]
    apply Events.upsertEventRow_length
    rw [List.any_eq_true]
    refine ⟨Events.eventRowOf ev now1, Events.upsertEventRow_mem_self _ _, ?_⟩
    rw [decide_eq_true_eq]
    exact hsig.symm

def c3Payload : Events.EventPayload :=
  { positionPositionId := some 555, closedPositionPositionId := none, positionId := none,
    orderOrderId := some 77, orderId := none, executionType := some "ORDER_FILLED",
    utcLastUpdateTimestamp := some 1700000000000, dealUtcTimestamp := none,
    executionTimestamp := none, dealExecutionPrice := some ((108 : ℚ)/100),
    executionPrice := none, closePrice := none, serializedUpper := "TAKE_PROFIT" }

def c3Event : Events.ExecEvent := { payloadType := 2126, payload := c3Payload }

def c3Req : Events.RequestRow :=
  { id := 1, broker := "ctrader", status := "accepted", signal_key := "k1",
    updated_at := 100, broker_position_id := some "555", broker_order_id := some "77" }

def c3Store : Events.ExecStore :=
  { events := [], orderRequests := [c3Req],
    trades := [{ signal_key := "k1", status := "OPEN", exit_reason := none,
                 exit_time := none, exit_price := none,
                 telegram_close_notified_at := none }] }

theorem claim_C3_witness :
    (Events.handleExecutionEvent c3Store c3Event 1 true).trades.map Events.closeState =
      c3Store.trades.map (fun t => Events.closeState
        (Events.closeUpdate c3Req.signal_key "TP"
          (Events.eventTimestamp c3Event.payload 1)
          (Events.extractExitPrice c3Event.payload) t)) ∧
    (∀ t ∈ c3Store.trades, t.signal_key = c3Req.signal_key → t.status = "OPEN" →
      Events.closeState (Events.closeUpdate c3Req.signal_key "TP"
          (Events.eventTimestamp c3Event.payload 1)
          (Events.extractExitPrice c3Event.payload) t) =
        (t.signal_key, "CLOSED", some "TP",
          some (Events.eventTimestamp c3Event.payload 1),
          Events.extractExitPrice c3Event.payload)) ∧
    (Events.handleExecutionEvent (Events.handleExecutionEvent c3Store c3Event 1 true)
        c3Event 2 true).trades.map Events.closeState =
      (Events.handleExecutionEvent c3Store c3Event 1 true).trades.map Events.closeState ∧
    (∃ r ∈ (Events.handleExecutionEvent (Events.handleExecutionEvent c3Store c3Event 1 true)
        c3Event 2 true).events, r.event_signature = Events.eventSignature c3Event) ∧
    (Events.eventSignature c3Event = Events.eventSignature c3Event →
      (Events.handleExecutionEvent (Events.handleExecutionEvent c3Store c3Event 1 true)
          c3Event 2 true).events.length =
        (Events.handleExecutionEvent c3Store c3Event 1 true).events.length) :=
  claim_C3_close_exactly_once c3Store c3Event c3Event 1 2 true true "TP" "TP" 555 c3Req
    (by decide) (by decide) (by decide) (by decide) (by decide)

end FxNola
